import Mathlib

/-!
Verification of the Trademark AI Search Platform client (`src/main.py`).

The program is a Streamlit dashboard with four panels (image search,
automated multi-weight search, text search, Vienna classification) in
front of a remote HTTP search service.  All of its observable behaviour
is presentation logic: build a request from the sidebar configuration
plus one user input, send it, and render the parsed JSON response.

This file embeds that logic shallowly:

* pure helpers (`get_score_class`, `display_result_card`) become pure
  Lean functions over a typed model of a parsed result object;
* the network is an oracle: each panel consumes a `RequestOutcome`
  (an HTTP response, a `requests` exception, or another exception) and
  each rendered result row consumes a `FetchOutcome` for its thumbnail;
* panel bodies (the `with tab1:` ... blocks) become total functions
  from those oracles to a small algebraic type of rendered output;
* `json.dumps(predictions, indent=2)` is modelled by an executable
  printer `jsonDumps`, together with an executable JSON parser used to
  state the download round-trip.

Numbers that the panels only compare and display are modelled as `ℚ`
(every score literal involved -- 0.7, 0.4, 0.5 -- parses from decimal
text, so the boundary comparisons in the source behave exactly as the
rational comparisons do).  Vienna predictions keep their decimal
digits, because the download claim is about serialized bytes.
-/

/-- CSS score class from `get_score_class` (src/main.py lines 91-98):
"score-high" for scores at least 0.7, "score-medium" for scores at
least 0.4, else "score-low". -/
def get_score_class (score : ℚ) : String :=
  if score ≥ 7/10 then "score-high"
  else if score ≥ 4/10 then "score-medium"
  else "score-low"

/-- One parsed result object, with every field the renderer touches.
Each field of the JSON object is optional (`'key' in result` guards or
`result.get` in the source); a field that is absent is `none`. -/
structure Result where
  image_url : Option String
  application_number : Option String
  verbal_element : Option String
  «class» : Option String
  trade_mark_type : Option String
  tmr_application_status : Option String
  application_date : Option String
  trade_mark_reg_date : Option String
  final_score : Option ℚ
  score : Option ℚ
  text_score : Option ℚ
  semantic_score_norm : Option ℚ
  text_score_norm : Option ℚ
deriving Repr, DecidableEq

/-- Outcome of one thumbnail fetch (`requests.get(url, timeout=10)`
followed by `Image.open`/`st.image` inside the `try`):
either an HTTP response arrived (with `opensOk = false` when opening or
drawing the received image raises), or the fetch itself raised. -/
inductive FetchOutcome where
  | response (status : Nat) (opensOk : Bool)
  | exn
deriving Repr, DecidableEq

/-- What column 1 of a result card shows. -/
inductive Thumb where
  | image (url : String)
  | info (msg : String)
  | warning (msg : String)
deriving Repr, DecidableEq

/-- Thumbnail column of `display_result_card` (src/main.py lines
104-117).  `fetch url 10` is the outcome of
`requests.get(result['image_url'], timeout=10)`. -/
def renderThumbnail (fetch : String → Nat → FetchOutcome) (image_url : Option String) : Thumb :=
  match image_url with
  | some u =>
      if u = "" then Thumb.info "📷 No image"
      else
        match fetch u 10 with
        | FetchOutcome.response status opensOk =>
            if status = 200 then
              if opensOk then Thumb.image u else Thumb.warning "⚠️ Image load failed"
            else Thumb.info "📷 Image unavailable"
        | FetchOutcome.exn => Thumb.warning "⚠️ Image load failed"
  | none => Thumb.info "📷 No image"

/-- Everything one call of `display_result_card` puts on screen. -/
structure Card where
  thumbnail : Thumb
  application : String
  brand : Option String
  metaCaption : Option String
  dateCaption : Option String
  badge : Option (ℚ × String)
  weightCaptions : Option (ℚ × ℚ)
deriving Repr, DecidableEq

/-- The body of `display_result_card` (src/main.py lines 100-171) as a
pure function of the result object and of this row's fetch oracle. -/
def display_result_card (fetch : String → Nat → FetchOutcome) (result : Result)
    (show_weights : Bool) : Card :=
  let meta_items : List String :=
    (match result.«class» with
     | some c => ["Class: " ++ c]
     | none => []) ++
    (match result.trade_mark_type with
     | some t => ["Type: " ++ t]
     | none => []) ++
    (match result.tmr_application_status with
     | some s => ["Status: " ++ s]
     | none => [])
  let date_items : List String :=
    (match result.application_date with
     | some d => if d = "" then [] else ["Applied: " ++ d]
     | none => []) ++
    (match result.trade_mark_reg_date with
     | some d => if d = "" then [] else ["Registered: " ++ d]
     | none => [])
  { thumbnail := renderThumbnail fetch result.image_url
    application := result.application_number.getD "N/A"
    brand :=
      match result.verbal_element with
      | some v => if v = "" then none else some v
      | none => none
    metaCaption := if meta_items = [] then none else some (String.intercalate " | " meta_items)
    dateCaption := if date_items = [] then none else some (String.intercalate " | " date_items)
    badge :=
      match result.final_score with
      | some s => some (s, get_score_class s)
      | none =>
          match result.score with
          | some s => some (s, get_score_class s)
          | none =>
              match result.text_score with
              | some s => some (s, get_score_class s)
              | none => none
    weightCaptions :=
      match result.final_score with
      | some _ =>
          if show_weights then
            some (result.semantic_score_norm.getD 0, result.text_score_norm.getD 0)
          else none
      | none => none }

/-- Index-aware map: `mapFrom f k [a, b, ...] = [f k a, f (k+1) b, ...]`.
Used to run one oracle-consuming render per element, in list order. -/
def mapFrom (f : Nat → α → β) : Nat → List α → List β
  | _, [] => []
  | k, a :: rest => f k a :: mapFrom f (k + 1) rest

theorem mapFrom_length (f : Nat → α → β) : ∀ (k : Nat) (l : List α),
    (mapFrom f k l).length = l.length
  | _, [] => rfl
  | k, _ :: rest => by simp [mapFrom, mapFrom_length f (k + 1) rest]

theorem mapFrom_get? (f : Nat → α → β) : ∀ (k : Nat) (l : List α) (i : Nat),
    (mapFrom f k l).get? i = (l.get? i).map (f (k + i))
  | _, [], i => by cases i <;> simp [mapFrom]
  | k, a :: rest, 0 => by simp [mapFrom]
  | k, a :: rest, i + 1 => by
      have ih := mapFrom_get? f (k + 1) rest i
      simp only [mapFrom, List.get?]
      rw [ih]
      have : k + 1 + i = k + (i + 1) := by omega
      rw [this]

/-- The result loop of a panel (`for result in ...: display_result_card(...)`).
`env i` is the thumbnail fetch oracle of row `i`; the loop renders one
card per result object, in list order. -/
def renderRows (env : Nat → String → Nat → FetchOutcome) (show_weights : Bool)
    (k : Nat) (results : List Result) : List Card :=
  mapFrom (fun i r => display_result_card (env i) r show_weights) k results

theorem renderRows_length (env : Nat → String → Nat → FetchOutcome) (show_weights : Bool)
    (k : Nat) (results : List Result) :
    (renderRows env show_weights k results).length = results.length :=
  mapFrom_length _ k results

theorem renderRows_get? (env : Nat → String → Nat → FetchOutcome) (show_weights : Bool)
    (k : Nat) (results : List Result) (i : Nat) :
    (renderRows env show_weights k results).get? i
      = (results.get? i).map (fun r => display_result_card (env (k + i)) r show_weights) :=
  mapFrom_get? _ k results i

/-- Sidebar configuration values (src/main.py lines 179-200). -/
structure SearchConfig where
  top_n : Nat
  candidate_pool : Nat
  semantic_weight : ℚ
  use_ocr : Bool
  vienna_threshold : ℚ
deriving Repr, DecidableEq

/-- Outcome of one panel-level HTTP call.  `response` carries the status
code, the raw body text (`response.text`) and, for consumers that call
`response.json()`, the parsed body (`none` when parsing it, or shaping
it as `β`, fails and raises instead).  The two exception constructors
are the two `except` arms of every panel. -/
inductive RequestOutcome (β : Type) where
  | response (status : Nat) (text : String) (parsed : Option β)
  | requestException (msg : String)
  | otherException (msg : String)
deriving Repr, DecidableEq

/-- Truthiness filter used by `if data.get('key'):` on string fields:
a present, non-empty string is shown, anything else is not. -/
def truthyStr : Option String → Option String
  | some s => if s = "" then none else some s
  | none => none

/-- Parsed 200-body of `POST /search/image` as tab 1 reads it:
`data['results']` and `data['semantic_weight']` are indexed directly
(hence required), the rest is read with `.get`. -/
structure ImageSearchData where
  results : List Result
  semantic_weight : ℚ
  shape_focus_active : Option Bool
  ocr_text : Option String
  cleaned_ocr_text : Option String
deriving Repr, DecidableEq

/-- Header metrics and OCR banners of tab 1's success branch. -/
structure Tab1Info where
  resultsFound : Nat
  semanticWeightShown : ℚ
  shapeFocus : String
  ocrShown : Option String
  cleanedOcrShown : Option String
deriving Repr, DecidableEq

/-- Everything tab 1 can put on screen after the button is pressed. -/
inductive Tab1Output where
  | results (info : Tab1Info) (rows : List Card)
  | apiError (status : Nat) (body : String)
  | connectionError (msg : String)
  | genericError (msg : String)
deriving Repr, DecidableEq

/-- The result rows of a tab-1 output (empty for every error state). -/
def Tab1Output.rows : Tab1Output → List Card
  | Tab1Output.results _ rows => rows
  | _ => []

/-- Whether tab 1 rendered a successful result list. -/
def Tab1Output.isResults : Tab1Output → Bool
  | Tab1Output.results _ _ => true
  | _ => false

/-- Whether tab 1 reported a connection error. -/
def Tab1Output.isConnectionError : Tab1Output → Bool
  | Tab1Output.connectionError _ => true
  | _ => false

/-- Tab 1's response handling (src/main.py lines 266-300): status 200
renders metrics, optional OCR banners and one card per result, in
response order; any other status shows the API error with the status
code and the body text; the `except` arms show connection / generic
errors.  `env i` is row `i`'s thumbnail oracle. -/
def tab1Render (env : Nat → String → Nat → FetchOutcome)
    (out : RequestOutcome ImageSearchData) : Tab1Output :=
  match out with
  | RequestOutcome.response status text parsed =>
      if status = 200 then
        match parsed with
        | some data =>
            Tab1Output.results
              { resultsFound := data.results.length
                semanticWeightShown := data.semantic_weight
                shapeFocus :=
                  if data.shape_focus_active.getD false then "🎨 Active" else "📝 Inactive"
                ocrShown := truthyStr data.ocr_text
                cleanedOcrShown :=
                  match truthyStr data.ocr_text with
                  | some _ => truthyStr data.cleaned_ocr_text
                  | none => none }
              (renderRows env true 0 data.results)
        | none => Tab1Output.genericError "JSONDecodeError"
      else Tab1Output.apiError status text
  | RequestOutcome.requestException msg =>
      Tab1Output.connectionError ("❌ Connection error: " ++ msg)
  | RequestOutcome.otherException msg =>
      Tab1Output.genericError ("❌ Error: " ++ msg)

/-- The image-search request tab 1 builds (src/main.py lines 250-264).
There is no guard on the payload: whatever `uploaded_file.getvalue()`
returned -- empty included -- is sent as the `file` part. -/
structure ImageSearchRequest where
  file : List Nat
  top_n : Nat
  semantic_weight : ℚ
  use_ocr : Bool
  candidate_pool : Nat
  timeoutSeconds : Nat
deriving Repr, DecidableEq

def tab1BuildRequest (fileBytes : List Nat) (cfg : SearchConfig) : ImageSearchRequest :=
  { file := fileBytes
    top_n := cfg.top_n
    semantic_weight := cfg.semantic_weight
    use_ocr := cfg.use_ocr
    candidate_pool := cfg.candidate_pool
    timeoutSeconds := 60 }

/-- One full press of tab 1's search button: build the request from the
uploaded bytes, hand it to the network oracle `net`, render the outcome. -/
def tab1Search (fileBytes : List Nat) (cfg : SearchConfig)
    (net : ImageSearchRequest → RequestOutcome ImageSearchData)
    (env : Nat → String → Nat → FetchOutcome) : Tab1Output :=
  tab1Render env (net (tab1BuildRequest fileBytes cfg))

/-- One entry of `results_by_weight` in the automated-search response. -/
structure WeightResult where
  semantic_weight : ℚ
  text_weight : ℚ
  shape_focus_active : Bool
  results : List Result
deriving Repr, DecidableEq

/-- Parsed 200-body of `POST /search/automated` as tab 2 reads it. -/
structure AutomatedSearchData where
  weights_searched : List ℚ
  gpus_used : Option (List String)
  candidate_pool : Nat
  top_n : Nat
  ocr_text : Option String
  cleaned_ocr_text : Option String
  results_by_weight : List WeightResult
deriving Repr, DecidableEq

/-- Header metrics and OCR banners of tab 2's success branch. -/
structure Tab2Info where
  weightsTested : Nat
  gpusUsed : Nat
  candidatePool : Nat
  topN : Nat
  ocrShown : Option String
  cleanedOcrShown : Option String
deriving Repr, DecidableEq

/-- One rendered `st.expander` group of the automated search. -/
structure WeightGroup where
  semantic_weight : ℚ
  text_weight : ℚ
  shape_focus_active : Bool
  resultCount : Nat
  expanded : Bool
  rows : List Card
deriving Repr, DecidableEq

/-- One iteration of the `for weight_result in data['results_by_weight']`
loop (src/main.py lines 370-382): a collapsible group whose header shows
the weights and result count, expanded exactly when
`semantic_weight == 0.5`, listing that entry's own results. -/
def renderWeightGroup (env : Nat → String → Nat → FetchOutcome) (w : WeightResult) : WeightGroup :=
  { semantic_weight := w.semantic_weight
    text_weight := w.text_weight
    shape_focus_active := w.shape_focus_active
    resultCount := w.results.length
    expanded := w.semantic_weight == 1/2
    rows := renderRows env true 0 w.results }

/-- Everything tab 2 can put on screen after the button is pressed. -/
inductive Tab2Output where
  | groups (info : Tab2Info) (groups : List WeightGroup)
  | apiError (status : Nat) (body : String)
  | connectionError (msg : String)
  | genericError (msg : String)
deriving Repr, DecidableEq

/-- The rendered groups of a tab-2 output (empty for every error state). -/
def Tab2Output.groupList : Tab2Output → List WeightGroup
  | Tab2Output.groups _ gs => gs
  | _ => []

/-- Tab 2's response handling (src/main.py lines 347-392).  `env g i`
is the thumbnail oracle of row `i` inside group `g`. -/
def tab2Render (env : Nat → Nat → String → Nat → FetchOutcome)
    (out : RequestOutcome AutomatedSearchData) : Tab2Output :=
  match out with
  | RequestOutcome.response status text parsed =>
      if status = 200 then
        match parsed with
        | some data =>
            Tab2Output.groups
              { weightsTested := data.weights_searched.length
                gpusUsed := (data.gpus_used.getD []).length
                candidatePool := data.candidate_pool
                topN := data.top_n
                ocrShown := truthyStr data.ocr_text
                cleanedOcrShown :=
                  match truthyStr data.ocr_text with
                  | some _ => truthyStr data.cleaned_ocr_text
                  | none => none }
              (mapFrom (fun g w => renderWeightGroup (env g) w) 0 data.results_by_weight)
        | none => Tab2Output.genericError "JSONDecodeError"
      else Tab2Output.apiError status text
  | RequestOutcome.requestException msg =>
      Tab2Output.connectionError ("❌ Connection error: " ++ msg)
  | RequestOutcome.otherException msg =>
      Tab2Output.genericError ("❌ Error: " ++ msg)

/-- Python whitespace, as `str.strip()` sees ASCII text. -/
def isPyWhitespace (c : Char) : Bool :=
  c = ' ' || c = '\t' || c = '\n' || c = '\r' || c = '\x0b' || c = '\x0c'

/-- Model of Python's `str.strip()`: drop leading and trailing whitespace. -/
def pyStrip (s : String) : String :=
  String.mk (((s.data.dropWhile isPyWhitespace).reverse.dropWhile isPyWhitespace).reverse)

/-- Parsed 200-body of `GET /search/text` as tab 3 reads it. -/
structure TextSearchData where
  results : List Result
  cleaned_query : Option String
deriving Repr, DecidableEq

/-- The text-search request (src/main.py line 408). -/
structure TextSearchRequest where
  query : String
  top_n : Nat
  timeoutSeconds : Nat
deriving Repr, DecidableEq

/-- The guard on tab 3's button (src/main.py line 405):
`if st.button(...) and query.strip():` -- the request is issued only
when the button was clicked and the stripped query is non-empty, and
the query parameter sent is the stripped string. -/
def tab3BuildRequest (clicked : Bool) (query : String) (cfg : SearchConfig) :
    Option TextSearchRequest :=
  if clicked ∧ pyStrip query ≠ "" then
    some { query := pyStrip query, top_n := cfg.top_n, timeoutSeconds := 30 }
  else none

/-- Header metrics of tab 3's success branch. -/
structure Tab3Info where
  resultsFound : Nat
  cleanedQueryShown : String
deriving Repr, DecidableEq

/-- Everything tab 3 can put on screen after a request was issued. -/
inductive Tab3Output where
  | results (info : Tab3Info) (rows : List Card)
  | apiError (status : Nat) (body : String)
  | connectionError (msg : String)
  | genericError (msg : String)
deriving Repr, DecidableEq

/-- The result rows of a tab-3 output (empty for every error state). -/
def Tab3Output.rows : Tab3Output → List Card
  | Tab3Output.results _ rows => rows
  | _ => []

/-- Tab 3's response handling (src/main.py lines 415-438).  The cards
are rendered with `show_weights` left at its default `False`. -/
def tab3Render (env : Nat → String → Nat → FetchOutcome) (query : String)
    (out : RequestOutcome TextSearchData) : Tab3Output :=
  match out with
  | RequestOutcome.response status text parsed =>
      if status = 200 then
        match parsed with
        | some data =>
            Tab3Output.results
              { resultsFound := data.results.length
                cleanedQueryShown := data.cleaned_query.getD query }
              (renderRows env false 0 data.results)
        | none => Tab3Output.genericError "JSONDecodeError"
      else Tab3Output.apiError status text
  | RequestOutcome.requestException msg =>
      Tab3Output.connectionError ("❌ Connection error: " ++ msg)
  | RequestOutcome.otherException msg =>
      Tab3Output.genericError ("❌ Error: " ++ msg)

/-- One full interaction with tab 3: the guard decides whether a request
goes out at all; `none` means no outbound call was made. -/
def tab3Search (clicked : Bool) (query : String) (cfg : SearchConfig)
    (net : TextSearchRequest → RequestOutcome TextSearchData)
    (env : Nat → String → Nat → FetchOutcome) : Option Tab3Output :=
  match tab3BuildRequest clicked query cfg with
  | some req => some (tab3Render env (pyStrip query) (net req))
  | none => none

/-- A JSON number kept as its decimal digits: sign, integer-part digits
and fraction-part digits (each digit a `Nat` below 10), exactly as the
serialized text carries them.  `⟨false, [0], [8, 5]⟩` is `0.85`. -/
structure JNum where
  neg : Bool
  ip : List Nat
  fp : List Nat
deriving Repr, DecidableEq

/-- A parsed JSON value, as tab 4 receives the Vienna prediction list. -/
inductive JVal where
  | str (s : String)
  | num (n : JNum)
  | bool (b : Bool)
  | null
  | arr (xs : List JVal)
  | obj (kvs : List (String × JVal))

/-- A character that serializes inside a JSON string as itself:
printable ASCII, neither the quote nor the backslash. -/
def plainChar (c : Char) : Bool :=
  32 ≤ c.toNat && c.toNat ≤ 126 && c ≠ '"' && c ≠ '\\'

/-- A string that `json.dumps` writes back verbatim (no escaping). -/
def plainStr (s : String) : Bool := s.data.all plainChar

/-- A decimal with at least one integer digit, all digits below 10. -/
def JNum.wf (n : JNum) : Bool :=
  !n.ip.isEmpty && (n.ip ++ n.fp).all (fun d => d < 10)

mutual
/-- Well-formed serialized content: plain strings and keys, well-formed
decimals, recursively. -/
def JVal.wf : JVal → Bool
  | JVal.str s => plainStr s
  | JVal.num n => n.wf
  | JVal.bool _ => true
  | JVal.null => true
  | JVal.arr xs => JVal.wfList xs
  | JVal.obj kvs => JVal.wfObj kvs
def JVal.wfList : List JVal → Bool
  | [] => true
  | x :: xs => JVal.wf x && JVal.wfList xs
def JVal.wfObj : List (String × JVal) → Bool
  | [] => true
  | kv :: kvs => plainStr kv.1 && JVal.wf kv.2 && JVal.wfObj kvs
end

/-- The digit characters of a decimal digit list. -/
def digitsChars (ds : List Nat) : List Char := ds.map Nat.digitChar

/-- Characters of a serialized JSON number. -/
def numChars (n : JNum) : List Char :=
  (if n.neg then ['-'] else []) ++ digitsChars n.ip ++
    (if n.fp.isEmpty then [] else '.' :: digitsChars n.fp)

/-- An indentation run of `k` spaces. -/
def indentChars (k : Nat) : List Char := List.replicate k ' '

mutual
/-- Characters `json.dumps(value, indent=2)` emits for a value whose
surrounding indentation level is `ind`: scalars inline; a non-empty
array or object opens its bracket, then one line per element indented
two further, then the closing bracket on its own line at `ind`. -/
def printChars (ind : Nat) : JVal → List Char
  | JVal.str s => '"' :: s.data ++ ['"']
  | JVal.num n => numChars n
  | JVal.bool b => if b then ['t', 'r', 'u', 'e'] else ['f', 'a', 'l', 's', 'e']
  | JVal.null => ['n', 'u', 'l', 'l']
  | JVal.arr [] => ['[', ']']
  | JVal.arr (x :: xs) =>
      '[' :: '\n' :: (printItems (ind + 2) x xs ++ '\n' :: indentChars ind ++ [']'])
  | JVal.obj [] => ['\x7b', '\x7d']
  | JVal.obj ((k, v) :: kvs) =>
      '\x7b' :: '\n' :: (printMembers (ind + 2) k v kvs ++ '\n' :: indentChars ind ++ ['\x7d'])
termination_by v => sizeOf v
decreasing_by all_goals (simp_wf; try omega)
/-- The comma-and-newline-separated element lines of a non-empty array. -/
def printItems (ind : Nat) (x : JVal) (xs : List JVal) : List Char :=
  indentChars ind ++ printChars ind x ++
    (match xs with
     | [] => []
     | y :: ys => ',' :: '\n' :: printItems ind y ys)
termination_by 1 + sizeOf x + sizeOf xs
decreasing_by all_goals (simp_wf; try omega)
/-- The member lines of a non-empty object; the key separator is `": "`. -/
def printMembers (ind : Nat) (k : String) (v : JVal) (kvs : List (String × JVal)) : List Char :=
  indentChars ind ++ '"' :: k.data ++ '"' :: ':' :: ' ' :: printChars ind v ++
    (match kvs with
     | [] => []
     | (k2, v2) :: rest => ',' :: '\n' :: printMembers ind k2 v2 rest)
termination_by 1 + sizeOf v + sizeOf kvs
decreasing_by all_goals (simp_wf; try omega)
end

/-- Model of Python's `json.dumps(v, indent=2)`. -/
def jsonDumps (v : JVal) : String := String.mk (printChars 0 v)

/-- JSON insignificant whitespace. -/
def isWsChar (c : Char) : Bool := c = ' ' || c = '\n' || c = '\t' || c = '\r'

/-- Skip insignificant whitespace. -/
def skipWs : List Char → List Char
  | c :: cs => if isWsChar c then skipWs cs else c :: cs
  | [] => []

def isDigitChar (c : Char) : Bool := '0' ≤ c && c ≤ '9'

/-- Read a maximal run of decimal digits, as digit values. -/
def scanDigits : List Char → List Nat × List Char
  | c :: cs =>
      if isDigitChar c then
        let p := scanDigits cs
        ((c.toNat - 48) :: p.1, p.2)
      else ([], c :: cs)
  | [] => ([], [])

/-- Consume a string body up to its closing quote. -/
def scanStringBody : List Char → Option (List Char × List Char)
  | [] => none
  | c :: cs =>
      if c = '"' then some ([], cs)
      else
        match scanStringBody cs with
        | some p => some (c :: p.1, p.2)
        | none => none

/-- Parse a number's digits (the sign was already consumed). -/
def parseNumTail (neg : Bool) (cs : List Char) : Option (JVal × List Char) :=
  match scanDigits cs with
  | ([], _) => none
  | (d :: ds, r) =>
      match r with
      | '.' :: r2 =>
          let p := scanDigits r2
          some (JVal.num ⟨neg, d :: ds, p.1⟩, p.2)
      | _ => some (JVal.num ⟨neg, d :: ds, []⟩, r)

mutual
/-- A fuel-indexed recursive-descent JSON parser over characters;
returns the value and the unconsumed remainder. -/
def parseVal : Nat → List Char → Option (JVal × List Char)
  | 0, _ => none
  | fuel + 1, cs =>
      match skipWs cs with
      | [] => none
      | c :: r =>
          if c = '"' then
            match scanStringBody r with
            | some p => some (JVal.str (String.mk p.1), p.2)
            | none => none
          else if c = '[' then
            match skipWs r with
            | [] => none
            | c2 :: r2 =>
                if c2 = ']' then some (JVal.arr [], r2)
                else
                  match parseArrItems fuel r with
                  | some p => some (JVal.arr p.1, p.2)
                  | none => none
          else if c = '\x7b' then
            match skipWs r with
            | [] => none
            | c2 :: r2 =>
                if c2 = '\x7d' then some (JVal.obj [], r2)
                else
                  match parseObjItems fuel r with
                  | some p => some (JVal.obj p.1, p.2)
                  | none => none
          else if c = 't' then
            match r with
            | 'r' :: 'u' :: 'e' :: r2 => some (JVal.bool true, r2)
            | _ => none
          else if c = 'f' then
            match r with
            | 'a' :: 'l' :: 's' :: 'e' :: r2 => some (JVal.bool false, r2)
            | _ => none
          else if c = 'n' then
            match r with
            | 'u' :: 'l' :: 'l' :: r2 => some (JVal.null, r2)
            | _ => none
          else if c = '-' then parseNumTail true r
          else if isDigitChar c then parseNumTail false (c :: r)
          else none
/-- One-or-more comma-separated array elements, then `]`. -/
def parseArrItems : Nat → List Char → Option (List JVal × List Char)
  | 0, _ => none
  | fuel + 1, cs =>
      match parseVal fuel cs with
      | some (v, r) =>
          (match skipWs r with
           | [] => none
           | c :: r2 =>
               if c = ',' then
                 match parseArrItems fuel r2 with
                 | some p => some (v :: p.1, p.2)
                 | none => none
               else if c = ']' then some ([v], r2)
               else none)
      | none => none
/-- One-or-more comma-separated object members, then the closing brace. -/
def parseObjItems : Nat → List Char → Option (List (String × JVal) × List Char)
  | 0, _ => none
  | fuel + 1, cs =>
      match skipWs cs with
      | [] => none
      | c :: r =>
          if c = '"' then
            match scanStringBody r with
            | some (k, r1) =>
                (match skipWs r1 with
                 | [] => none
                 | c2 :: r2 =>
                     if c2 = ':' then
                       match parseVal fuel r2 with
                       | some (v, r3) =>
                           (match skipWs r3 with
                            | [] => none
                            | c3 :: r4 =>
                                if c3 = ',' then
                                  match parseObjItems fuel r4 with
                                  | some p => some ((String.mk k, v) :: p.1, p.2)
                                  | none => none
                                else if c3 = '\x7d' then some ([(String.mk k, v)], r4)
                                else none)
                       | none => none
                     else none)
            | none => none
          else none
end

/-- Parse a complete JSON document (fuel: one unit per character
suffices, plus one to start). -/
def jsonParse (s : String) : Option JVal :=
  match parseVal (s.length + 1) s.data with
  | some (v, r) => if skipWs r = [] then some v else none
  | none => none

/-- Numeric value of a decimal digit list (most significant first). -/
def digitsVal (ds : List Nat) : Nat := ds.foldl (fun a d => a * 10 + d) 0

/-- The rational a decimal denotes, for the score comparisons. -/
def JNum.toRat (n : JNum) : ℚ :=
  let mag : ℚ := (digitsVal (n.ip ++ n.fp) : ℚ) / (10 ^ n.fp.length)
  if n.neg then -mag else mag

/-- One parsed Vienna prediction object: an ordered list of key/value
pairs, as `response.json()` hands each element to the loop.  Keys are
unique (Python dicts), so first-match lookup is dict indexing. -/
abbrev PredObj := List (String × JVal)

/-- One rendered prediction card (src/main.py lines 495-514): the three
displayed fields, plus the probability and its score class. -/
structure PredCard where
  code : JVal
  ctype : JVal
  descr : JVal
  probability : ℚ
  badgeClass : String

/-- Render one prediction, `none` when the loop body would raise: a
missing key (`KeyError`) or a non-numeric probability (`get_score_class`
comparing it against a float raises `TypeError`). -/
def renderPred (pred : PredObj) : Option PredCard :=
  match pred.lookup "category_code", pred.lookup "category_type",
      pred.lookup "description", pred.lookup "probability" with
  | some c, some t, some d, some (JVal.num q) =>
      some { code := c, ctype := t, descr := d,
             probability := q.toRat, badgeClass := get_score_class q.toRat }
  | _, _, _, _ => none

/-- The prediction loop: the cards rendered before any failure, and
whether every prediction rendered (Streamlit keeps already-drawn cards
on screen when a later iteration raises). -/
def renderPreds : List PredObj → List PredCard × Bool
  | [] => ([], true)
  | p :: rest =>
      match renderPred p with
      | some c =>
          let q := renderPreds rest
          (c :: q.1, q.2)
      | none => ([], false)

/-- Everything tab 4 can put on screen after the button is pressed.
`predictions` carries the success banner count, the cards, the JSON
download payload and the table's data; `noneFound` is the empty-list
warning; `rowsThenError` is a loop that raised after some cards. -/
inductive Tab4Output where
  | predictions (foundCount : Nat) (rows : List PredCard) (downloadData : String)
      (table : List PredObj)
  | noneFound
  | rowsThenError (rows : List PredCard)
  | apiError (status : Nat) (body : String)
  | connectionError (msg : String)
  | genericError (msg : String)

/-- The download payload, when a download button is offered at all. -/
def Tab4Output.downloadData : Tab4Output → Option String
  | Tab4Output.predictions _ _ dl _ => some dl
  | _ => none

/-- The table view, when one is offered at all. -/
def Tab4Output.tableView : Tab4Output → Option (List PredObj)
  | Tab4Output.predictions _ _ _ t => some t
  | _ => none

/-- The prediction cards shown (empty for every error state). -/
def Tab4Output.rows : Tab4Output → List PredCard
  | Tab4Output.predictions _ rows _ _ => rows
  | Tab4Output.rowsThenError rows => rows
  | _ => []

/-- Tab 4's response handling (src/main.py lines 485-540): status 200
with a non-empty prediction list renders the banner, one card per
prediction, a JSON download of `json.dumps(predictions, indent=2)` and
a table of the same list; an empty list shows only the warning; other
statuses and exceptions mirror the other tabs. -/
def tab4Render (out : RequestOutcome (List PredObj)) : Tab4Output :=
  match out with
  | RequestOutcome.response status text parsed =>
      if status = 200 then
        match parsed with
        | some predictions =>
            if predictions.isEmpty then Tab4Output.noneFound
            else
              let r := renderPreds predictions
              if r.2 then
                Tab4Output.predictions predictions.length r.1
                  (jsonDumps (JVal.arr (predictions.map JVal.obj))) predictions
              else Tab4Output.rowsThenError r.1
        | none => Tab4Output.genericError "JSONDecodeError"
      else Tab4Output.apiError status text
  | RequestOutcome.requestException msg =>
      Tab4Output.connectionError ("❌ Connection error: " ++ msg)
  | RequestOutcome.otherException msg =>
      Tab4Output.genericError ("❌ Error: " ++ msg)

/-- C1: a successful (HTTP 200) image-search response whose parsed body
carries N result objects renders exactly N result rows, one per result
object, in the server's order: the row at every index `i` is precisely
`display_result_card` of the (unmodified) result object at index `i`,
nothing is dropped, added, or reordered. -/
theorem C1_image_search_rows (env : Nat → String → Nat → FetchOutcome)
    (text : String) (data : ImageSearchData) :
    (tab1Render env (RequestOutcome.response 200 text (some data))).isResults = true
    ∧ (tab1Render env (RequestOutcome.response 200 text (some data))).rows.length
        = data.results.length
    ∧ ∀ i, (tab1Render env (RequestOutcome.response 200 text (some data))).rows.get? i
        = (data.results.get? i).map (fun r => display_result_card (env i) r true) := by
  have hrows : (tab1Render env (RequestOutcome.response 200 text (some data))).rows
      = renderRows env true 0 data.results := rfl
  refine ⟨rfl, ?_, ?_⟩
  · rw [hrows, renderRows_length]
  · intro i
    rw [hrows, renderRows_get?]
    simp

/-- C2: score-class labelling is a pure total function of the score:
at least 0.7 labels "score-high" (boundary inclusive), at least 0.4 and
below 0.7 labels "score-medium" (boundary inclusive), below 0.4 labels
"score-low"; 0.75, 0.7 are high, 0.45, 0.4 medium, 0.1 low; and the
label never reorders or filters: the rendered row list keeps one card
per result object, positionally. -/
theorem C2_score_class_pure (score : ℚ) :
    (score ≥ 7/10 → get_score_class score = "score-high")
    ∧ (4/10 ≤ score ∧ score < 7/10 → get_score_class score = "score-medium")
    ∧ (score < 4/10 → get_score_class score = "score-low")
    ∧ get_score_class (3/4) = "score-high"
    ∧ get_score_class (7/10) = "score-high"
    ∧ get_score_class (9/20) = "score-medium"
    ∧ get_score_class (4/10) = "score-medium"
    ∧ get_score_class (1/10) = "score-low"
    ∧ ∀ (env : Nat → String → Nat → FetchOutcome) (sw : Bool) (results : List Result),
        (renderRows env sw 0 results).length = results.length
        ∧ ∀ i, (renderRows env sw 0 results).get? i
            = (results.get? i).map (fun r => display_result_card (env i) r sw) := by
  refine ⟨?_, ?_, ?_, by norm_num [get_score_class], by norm_num [get_score_class],
    by norm_num [get_score_class], by norm_num [get_score_class],
    by norm_num [get_score_class], ?_⟩
  · intro h
    rw [get_score_class, if_pos h]
  · intro h
    rw [get_score_class, if_neg (by exact not_le.mpr h.2), if_pos h.1]
  · intro h
    rw [get_score_class, if_neg (by exact not_le.mpr (lt_trans h (by norm_num))),
      if_neg (by exact not_le.mpr h)]
  · intro env sw results
    refine ⟨renderRows_length env sw 0 results, ?_⟩
    intro i
    rw [renderRows_get?]
    simp

/-- C2 witness: the labelling applied at concrete boundary scores. -/
theorem C2_score_class_pure_witness :
    get_score_class (7/10) = "score-high"
    ∧ get_score_class (4/10) = "score-medium"
    ∧ get_score_class (1/10) = "score-low" :=
  ⟨(C2_score_class_pure (7/10)).1 (by norm_num),
   (C2_score_class_pure (4/10)).2.1 ⟨by norm_num, by norm_num⟩,
   (C2_score_class_pure (1/10)).2.2.1 (by norm_num)⟩

/-- C3: a non-2xx HTTP status makes the panel that issued the request
show a structured API error carrying the status code and the raw body,
with zero result rows (and, for tab 4, no download and no table); this
holds for all four panels. -/
theorem C3_non_2xx_api_error (status : Nat) (text : String)
    (env : Nat → String → Nat → FetchOutcome)
    (env2 : Nat → Nat → String → Nat → FetchOutcome) (query : String)
    (p1 : Option ImageSearchData) (p2 : Option AutomatedSearchData)
    (p3 : Option TextSearchData) (p4 : Option (List PredObj))
    (hs : ¬ (200 ≤ status ∧ status ≤ 299)) :
    (tab1Render env (RequestOutcome.response status text p1)
        = Tab1Output.apiError status text
      ∧ (tab1Render env (RequestOutcome.response status text p1)).rows = [])
    ∧ (tab2Render env2 (RequestOutcome.response status text p2)
        = Tab2Output.apiError status text
      ∧ (tab2Render env2 (RequestOutcome.response status text p2)).groupList = [])
    ∧ (tab3Render env query (RequestOutcome.response status text p3)
        = Tab3Output.apiError status text
      ∧ (tab3Render env query (RequestOutcome.response status text p3)).rows = [])
    ∧ (tab4Render (RequestOutcome.response status text p4)
        = Tab4Output.apiError status text
      ∧ (tab4Render (RequestOutcome.response status text p4)).rows = []
      ∧ (tab4Render (RequestOutcome.response status text p4)).downloadData = none
      ∧ (tab4Render (RequestOutcome.response status text p4)).tableView = none) := by
  have hne : status ≠ 200 := by omega
  refine ⟨⟨?_, ?_⟩, ⟨?_, ?_⟩, ⟨?_, ?_⟩, ⟨?_, ?_, ?_, ?_⟩⟩ <;>
    simp [tab1Render, tab2Render, tab3Render, tab4Render, hne,
      Tab1Output.rows, Tab2Output.groupList, Tab3Output.rows, Tab4Output.rows,
      Tab4Output.downloadData, Tab4Output.tableView]

/-- C3 witness: a 500 response with body `{"detail":"internal error"}`
yields the API error showing status 500 and that body, with no rows. -/
theorem C3_non_2xx_api_error_witness :
    tab1Render (fun _ _ _ => FetchOutcome.exn)
        (RequestOutcome.response 500 "\x7b\"detail\":\"internal error\"\x7d" none)
      = Tab1Output.apiError 500 "\x7b\"detail\":\"internal error\"\x7d"
    ∧ (tab1Render (fun _ _ _ => FetchOutcome.exn)
        (RequestOutcome.response 500 "\x7b\"detail\":\"internal error\"\x7d" none)).rows = [] :=
  (C3_non_2xx_api_error 500 "\x7b\"detail\":\"internal error\"\x7d"
    (fun _ _ _ => FetchOutcome.exn) (fun _ _ _ _ => FetchOutcome.exn) "" none none none none
    (by omega)).1

/-- C4: a query that is empty or whitespace-only is rejected before any
call: no text-search request is built and no outbound interaction
happens; for a non-blank query the request carries the stripped string. -/
theorem C4_blank_query_rejected (query : String) (cfg : SearchConfig) :
    ((∀ c ∈ query.data, isPyWhitespace c = true) →
      ∀ (clicked : Bool) (net : TextSearchRequest → RequestOutcome TextSearchData)
        (env : Nat → String → Nat → FetchOutcome),
        tab3BuildRequest clicked query cfg = none
        ∧ tab3Search clicked query cfg net env = none)
    ∧ (pyStrip query ≠ "" →
      tab3BuildRequest true query cfg
        = some { query := pyStrip query, top_n := cfg.top_n, timeoutSeconds := 30 }) := by
  constructor
  · intro hws clicked net env
    have hstrip : pyStrip query = "" := by
      have h1 : query.data.dropWhile isPyWhitespace = [] :=
        List.dropWhile_eq_nil_iff.mpr fun c hc => hws c hc
      simp [pyStrip, h1]
    have hreq : tab3BuildRequest clicked query cfg = none := by
      rw [tab3BuildRequest, if_neg]
      intro hcl
      exact hcl.2 hstrip
    exact ⟨hreq, by rw [tab3Search, hreq]⟩
  · intro hne
    rw [tab3BuildRequest, if_pos ⟨rfl, hne⟩]

/-- C4 witness: a three-space query issues no request; a padded query
sends its stripped text. -/
theorem C4_blank_query_rejected_witness :
    (tab3Search true "   " ⟨10, 200, 1/2, true, 1/5⟩
        (fun _ => RequestOutcome.otherException "never called")
        (fun _ _ _ => FetchOutcome.exn) = none)
    ∧ tab3BuildRequest true "  nike  " ⟨10, 200, 1/2, true, 1/5⟩
        = some { query := pyStrip "  nike  ", top_n := 10, timeoutSeconds := 30 } :=
  ⟨((C4_blank_query_rejected "   " ⟨10, 200, 1/2, true, 1/5⟩).1 (by decide) true
      (fun _ => RequestOutcome.otherException "never called") (fun _ _ _ => FetchOutcome.exn)).2,
   (C4_blank_query_rejected "  nike  " ⟨10, 200, 1/2, true, 1/5⟩).2 (by decide)⟩

theorem mapFrom_map (f : Nat → α → β) (g : β → γ) : ∀ (k : Nat) (l : List α),
    (mapFrom f k l).map g = mapFrom (fun i a => g (f i a)) k l
  | _, [] => rfl
  | k, a :: rest => by simp [mapFrom, mapFrom_map f g (k + 1) rest]

theorem mapFrom_eq_map (f : Nat → α → β) (g : α → β) (h : ∀ i a, f i a = g a) :
    ∀ (k : Nat) (l : List α), mapFrom f k l = l.map g
  | _, [] => rfl
  | k, a :: rest => by simp [mapFrom, h, mapFrom_eq_map f g h (k + 1) rest]

/-- C5: a successful automated-search response renders exactly one
collapsible group per `results_by_weight` entry, in order, each group
listing its own entry's results; a group starts expanded exactly when
its `semantic_weight` equals 0.5; with the five standard weights this
is five groups, of which only the middle one starts expanded. -/
theorem C5_automated_weight_groups (env2 : Nat → Nat → String → Nat → FetchOutcome)
    (text : String) (data : AutomatedSearchData) :
    (tab2Render env2 (RequestOutcome.response 200 text (some data))).groupList.length
        = data.results_by_weight.length
    ∧ (∀ g, (tab2Render env2 (RequestOutcome.response 200 text (some data))).groupList.get? g
        = (data.results_by_weight.get? g).map (fun w => renderWeightGroup (env2 g) w))
    ∧ (∀ (e : Nat → String → Nat → FetchOutcome) (w : WeightResult),
        (renderWeightGroup e w).expanded = (w.semantic_weight == 1/2)
        ∧ (renderWeightGroup e w).rows = renderRows e true 0 w.results
        ∧ (renderWeightGroup e w).resultCount = w.results.length)
    ∧ (data.results_by_weight.map WeightResult.semantic_weight = [0, 1/4, 1/2, 3/4, 1] →
        (tab2Render env2 (RequestOutcome.response 200 text (some data))).groupList.length = 5
        ∧ (tab2Render env2 (RequestOutcome.response 200 text
            (some data))).groupList.map WeightGroup.expanded
          = [false, false, true, false, false]) := by
  have hgl : (tab2Render env2 (RequestOutcome.response 200 text (some data))).groupList
      = mapFrom (fun g w => renderWeightGroup (env2 g) w) 0 data.results_by_weight := rfl
  refine ⟨by rw [hgl, mapFrom_length], ?_, fun e w => ⟨rfl, rfl, rfl⟩, ?_⟩
  · intro g
    rw [hgl, mapFrom_get?]
    simp
  · intro hw
    have hexp : (tab2Render env2 (RequestOutcome.response 200 text
          (some data))).groupList.map WeightGroup.expanded
        = data.results_by_weight.map (fun w => w.semantic_weight == 1/2) := by
      rw [hgl, mapFrom_map]
      exact mapFrom_eq_map (fun i a => (renderWeightGroup (env2 i) a).expanded)
        (fun w => w.semantic_weight == 1/2) (fun i a => rfl) 0 data.results_by_weight
    have hlen : data.results_by_weight.length = 5 := by
      have := congrArg List.length hw
      simpa using this
    constructor
    · rw [hgl, mapFrom_length, hlen]
    · rw [hexp, show (fun w : WeightResult => w.semantic_weight == 1/2)
          = (fun q : ℚ => q == 1/2) ∘ WeightResult.semantic_weight from rfl,
        ← List.map_map, hw]
      norm_num [List.map, beq_iff_eq, beq_eq_false_iff_ne]

/-- C5 witness: a response carrying the five standard weights renders
five groups, the third (weight 0.5) expanded and no other. -/
theorem C5_automated_weight_groups_witness :
    (tab2Render (fun _ _ _ _ => FetchOutcome.exn) (RequestOutcome.response 200 ""
        (some { weights_searched := [0, 1/4, 1/2, 3/4, 1]
                gpus_used := none
                candidate_pool := 200
                top_n := 10
                ocr_text := none
                cleaned_ocr_text := none
                results_by_weight :=
                  [⟨0, 1, false, []⟩, ⟨1/4, 3/4, false, []⟩, ⟨1/2, 1/2, false, []⟩,
                   ⟨3/4, 1/4, false, []⟩, ⟨1, 0, true, []⟩] }))).groupList.length = 5
    ∧ (tab2Render (fun _ _ _ _ => FetchOutcome.exn) (RequestOutcome.response 200 ""
        (some { weights_searched := [0, 1/4, 1/2, 3/4, 1]
                gpus_used := none
                candidate_pool := 200
                top_n := 10
                ocr_text := none
                cleaned_ocr_text := none
                results_by_weight :=
                  [⟨0, 1, false, []⟩, ⟨1/4, 3/4, false, []⟩, ⟨1/2, 1/2, false, []⟩,
                   ⟨3/4, 1/4, false, []⟩, ⟨1, 0, true, []⟩] }))).groupList.map
        WeightGroup.expanded = [false, false, true, false, false] :=
  (C5_automated_weight_groups (fun _ _ _ _ => FetchOutcome.exn) ""
      { weights_searched := [0, 1/4, 1/2, 3/4, 1]
        gpus_used := none
        candidate_pool := 200
        top_n := 10
        ocr_text := none
        cleaned_ocr_text := none
        results_by_weight :=
          [⟨0, 1, false, []⟩, ⟨1/4, 3/4, false, []⟩, ⟨1/2, 1/2, false, []⟩,
           ⟨3/4, 1/4, false, []⟩, ⟨1, 0, true, []⟩] }).2.2.2 rfl

/-- C6: a thumbnail fetch only ever touches its own row: the fetch
oracle influences nothing of a card but its thumbnail; a fetch that
raises (timeout included -- each fetch runs with the 10-second bound)
degrades the thumbnail to the load-failed placeholder and a non-200
response to the unavailable placeholder; rows at every other index are
rendered identically whatever one row's oracle does, and the row count
never changes. -/
theorem C6_thumbnail_isolation (fetch fetch' : String → Nat → FetchOutcome)
    (r : Result) (sw : Bool) :
    (display_result_card fetch r sw
      = { display_result_card fetch' r sw with thumbnail := renderThumbnail fetch r.image_url })
    ∧ (∀ u, r.image_url = some u → u ≠ "" → fetch u 10 = FetchOutcome.exn →
        (display_result_card fetch r sw).thumbnail = Thumb.warning "⚠️ Image load failed")
    ∧ (∀ u s ok, r.image_url = some u → u ≠ "" → fetch u 10 = FetchOutcome.response s ok →
        s ≠ 200 →
        (display_result_card fetch r sw).thumbnail = Thumb.info "📷 Image unavailable")
    ∧ (∀ (env env' : Nat → String → Nat → FetchOutcome) (results : List Result) (i : Nat),
        (∀ j, j ≠ i → env j = env' j) →
        ∀ j, j ≠ i →
          (renderRows env sw 0 results).get? j = (renderRows env' sw 0 results).get? j)
    ∧ (∀ (env : Nat → String → Nat → FetchOutcome) (results : List Result),
        (renderRows env sw 0 results).length = results.length) := by
  refine ⟨rfl, ?_, ?_, ?_, fun env results => renderRows_length env sw 0 results⟩
  · intro u hu hne hf
    have : (display_result_card fetch r sw).thumbnail = renderThumbnail fetch r.image_url := rfl
    rw [this, hu, renderThumbnail, if_neg hne, hf]
  · intro u s ok hu hne hf hs
    have : (display_result_card fetch r sw).thumbnail = renderThumbnail fetch r.image_url := rfl
    rw [this, hu, renderThumbnail, if_neg hne, hf]
    simp [hs]
  · intro env env' results i hagree j hji
    rw [renderRows_get?, renderRows_get?]
    simp only [Nat.zero_add]
    rw [hagree j hji]

/-- C6 witness: with a raising fetch the thumbnail degrades to the
placeholder, and the neighbouring row is untouched by that row's
oracle. -/
theorem C6_thumbnail_isolation_witness :
    ((display_result_card (fun _ _ => FetchOutcome.exn)
        { image_url := some "http://img/a.png", application_number := some "A1",
          verbal_element := none, «class» := none, trade_mark_type := none,
          tmr_application_status := none, application_date := none,
          trade_mark_reg_date := none, final_score := some (4/5), score := none,
          text_score := none, semantic_score_norm := none, text_score_norm := none }
        true).thumbnail = Thumb.warning "⚠️ Image load failed")
    ∧ ((renderRows (fun j _ _ => if j = 0 then FetchOutcome.exn
            else FetchOutcome.response 200 true) true 0
          [{ image_url := some "http://img/a.png", application_number := some "A1",
             verbal_element := none, «class» := none, trade_mark_type := none,
             tmr_application_status := none, application_date := none,
             trade_mark_reg_date := none, final_score := some (4/5), score := none,
             text_score := none, semantic_score_norm := none, text_score_norm := none },
           { image_url := some "http://img/b.png", application_number := some "B2",
             verbal_element := none, «class» := none, trade_mark_type := none,
             tmr_application_status := none, application_date := none,
             trade_mark_reg_date := none, final_score := some (3/5), score := none,
             text_score := none, semantic_score_norm := none, text_score_norm := none }]).get? 1
        = (renderRows (fun _ _ _ => FetchOutcome.response 200 true) true 0
          [{ image_url := some "http://img/a.png", application_number := some "A1",
             verbal_element := none, «class» := none, trade_mark_type := none,
             tmr_application_status := none, application_date := none,
             trade_mark_reg_date := none, final_score := some (4/5), score := none,
             text_score := none, semantic_score_norm := none, text_score_norm := none },
           { image_url := some "http://img/b.png", application_number := some "B2",
             verbal_element := none, «class» := none, trade_mark_type := none,
             tmr_application_status := none, application_date := none,
             trade_mark_reg_date := none, final_score := some (3/5), score := none,
             text_score := none, semantic_score_norm := none, text_score_norm := none }]).get? 1) :=
  ⟨((C6_thumbnail_isolation (fun _ _ => FetchOutcome.exn)
        (fun _ _ => FetchOutcome.response 200 true)
        { image_url := some "http://img/a.png", application_number := some "A1",
          verbal_element := none, «class» := none, trade_mark_type := none,
          tmr_application_status := none, application_date := none,
          trade_mark_reg_date := none, final_score := some (4/5), score := none,
          text_score := none, semantic_score_norm := none, text_score_norm := none }
        true).2.1) "http://img/a.png" rfl (by decide) rfl,
   ((C6_thumbnail_isolation (fun _ _ => FetchOutcome.exn)
        (fun _ _ => FetchOutcome.response 200 true)
        { image_url := some "http://img/a.png", application_number := some "A1",
          verbal_element := none, «class» := none, trade_mark_type := none,
          tmr_application_status := none, application_date := none,
          trade_mark_reg_date := none, final_score := some (4/5), score := none,
          text_score := none, semantic_score_norm := none, text_score_norm := none }
        true).2.2.2.1)
      (fun j _ _ => if j = 0 then FetchOutcome.exn else FetchOutcome.response 200 true)
      (fun _ _ _ => FetchOutcome.response 200 true)
      [{ image_url := some "http://img/a.png", application_number := some "A1",
         verbal_element := none, «class» := none, trade_mark_type := none,
         tmr_application_status := none, application_date := none,
         trade_mark_reg_date := none, final_score := some (4/5), score := none,
         text_score := none, semantic_score_norm := none, text_score_norm := none },
       { image_url := some "http://img/b.png", application_number := some "B2",
         verbal_element := none, «class» := none, trade_mark_type := none,
         tmr_application_status := none, application_date := none,
         trade_mark_reg_date := none, final_score := some (3/5), score := none,
         text_score := none, semantic_score_norm := none, text_score_norm := none }]
      0 (fun j hj => by simp [if_neg hj]) 1 (by decide)⟩

/-- C9: the displayed score is chosen by fixed precedence --
`final_score`, else `score`, else `text_score` -- and a result carrying
none of the three gets no score badge at all. -/
theorem C9_score_precedence (fetch : String → Nat → FetchOutcome) (r : Result) (sw : Bool) :
    (∀ q, r.final_score = some q →
      (display_result_card fetch r sw).badge = some (q, get_score_class q))
    ∧ (∀ q, r.final_score = none → r.score = some q →
      (display_result_card fetch r sw).badge = some (q, get_score_class q))
    ∧ (∀ q, r.final_score = none → r.score = none → r.text_score = some q →
      (display_result_card fetch r sw).badge = some (q, get_score_class q))
    ∧ (r.final_score = none → r.score = none → r.text_score = none →
      (display_result_card fetch r sw).badge = none) := by
  refine ⟨?_, ?_, ?_, ?_⟩
  · intro q h
    simp [display_result_card, h]
  · intro q h1 h2
    simp [display_result_card, h1, h2]
  · intro q h1 h2 h3
    simp [display_result_card, h1, h2, h3]
  · intro h1 h2 h3
    simp [display_result_card, h1, h2, h3]

/-- C9 witness: with all three score fields present, `final_score`
wins; with none present, there is no badge. -/
theorem C9_score_precedence_witness :
    (display_result_card (fun _ _ => FetchOutcome.exn)
        { image_url := none, application_number := none, verbal_element := none,
          «class» := none, trade_mark_type := none, tmr_application_status := none,
          application_date := none, trade_mark_reg_date := none,
          final_score := some (9/10), score := some (1/10), text_score := some (2/10),
          semantic_score_norm := none, text_score_norm := none } false).badge
      = some (9/10, get_score_class (9/10))
    ∧ (display_result_card (fun _ _ => FetchOutcome.exn)
        { image_url := none, application_number := none, verbal_element := none,
          «class» := none, trade_mark_type := none, tmr_application_status := none,
          application_date := none, trade_mark_reg_date := none,
          final_score := none, score := none, text_score := none,
          semantic_score_norm := none, text_score_norm := none } false).badge = none :=
  ⟨(C9_score_precedence (fun _ _ => FetchOutcome.exn)
      { image_url := none, application_number := none, verbal_element := none,
        «class» := none, trade_mark_type := none, tmr_application_status := none,
        application_date := none, trade_mark_reg_date := none,
        final_score := some (9/10), score := some (1/10), text_score := some (2/10),
        semantic_score_norm := none, text_score_norm := none } false).1 (9/10) rfl,
   (C9_score_precedence (fun _ _ => FetchOutcome.exn)
      { image_url := none, application_number := none, verbal_element := none,
        «class» := none, trade_mark_type := none, tmr_application_status := none,
        application_date := none, trade_mark_reg_date := none,
        final_score := none, score := none, text_score := none,
        semantic_score_norm := none, text_score_norm := none } false).2.2.2 rfl rfl rfl⟩

/-- C10: a 200 Vienna response whose parsed body is the empty
prediction list renders only the "none found" warning: zero prediction
rows, no JSON download button and no table view. -/
theorem C10_vienna_empty_warning (text : String) :
    tab4Render (RequestOutcome.response 200 text (some [])) = Tab4Output.noneFound
    ∧ (tab4Render (RequestOutcome.response 200 text (some []))).rows = []
    ∧ (tab4Render (RequestOutcome.response 200 text (some []))).downloadData = none
    ∧ (tab4Render (RequestOutcome.response 200 text (some []))).tableView = none :=
  ⟨rfl, rfl, rfl, rfl⟩

/-- A minimal one-result response body, for exercising tab 1. -/
def oneResultData : ImageSearchData :=
  { results :=
      [{ image_url := none, application_number := some "X9", verbal_element := none,
         «class» := none, trade_mark_type := none, tmr_application_status := none,
         application_date := none, trade_mark_reg_date := none,
         final_score := some (9/10), score := none, text_score := none,
         semantic_score_norm := none, text_score_norm := none }]
    semantic_weight := 1/2
    shape_focus_active := none
    ocr_text := none
    cleaned_ocr_text := none }

/-- A service that answers every image search with HTTP 200 and
`oneResultData`, whatever the payload. -/
def okNet : ImageSearchRequest → RequestOutcome ImageSearchData :=
  fun _ => RequestOutcome.response 200 "" (some oneResultData)

/-- C8 counterexample: the client never checks the uploaded payload
for emptiness.  With an empty payload the request is still built and
sent, and when the service answers 200 the panel renders a successful
one-row result list, not a connection error -- so an empty upload does
not make the operation fail. -/
theorem C8_empty_upload_counterexample :
    (tab1BuildRequest [] ⟨10, 200, 1/2, true, 1/5⟩).file = []
    ∧ (tab1Search [] ⟨10, 200, 1/2, true, 1/5⟩ okNet
        (fun _ _ _ => FetchOutcome.exn)).isResults = true
    ∧ (tab1Search [] ⟨10, 200, 1/2, true, 1/5⟩ okNet
        (fun _ _ _ => FetchOutcome.exn)).isConnectionError = false
    ∧ (tab1Search [] ⟨10, 200, 1/2, true, 1/5⟩ okNet
        (fun _ _ _ => FetchOutcome.exn)).rows.length = 1 :=
  ⟨rfl, rfl, rfl, rfl⟩

/-- C8 amended: the image-search request is sent unconditionally --
empty payload included, carried verbatim as the `file` part with the
60-second bound -- and the panel reports a connection error, rendering
no result rows, exactly when the HTTP call raises a requests exception
(connection failure or timeout). -/
theorem C8_connection_error_path (fileBytes : List Nat) (cfg : SearchConfig)
    (net : ImageSearchRequest → RequestOutcome ImageSearchData)
    (env : Nat → String → Nat → FetchOutcome) (msg : String)
    (h : net (tab1BuildRequest fileBytes cfg) = RequestOutcome.requestException msg) :
    (tab1BuildRequest fileBytes cfg).file = fileBytes
    ∧ (tab1BuildRequest fileBytes cfg).timeoutSeconds = 60
    ∧ tab1Search fileBytes cfg net env
        = Tab1Output.connectionError ("❌ Connection error: " ++ msg)
    ∧ (tab1Search fileBytes cfg net env).rows = []
    ∧ (tab1Search fileBytes cfg net env).isResults = false := by
  have hout : tab1Search fileBytes cfg net env
      = tab1Render env (RequestOutcome.requestException msg) := by
    rw [tab1Search, h]
  exact ⟨rfl, rfl, by rw [hout]; rfl, by rw [hout]; rfl, by rw [hout]; rfl⟩

/-- C8 witness: an empty upload whose call times out is reported as a
connection error with no rows. -/
theorem C8_connection_error_path_witness :
    tab1Search [] ⟨10, 200, 1/2, true, 1/5⟩
        (fun _ => RequestOutcome.requestException "timed out") (fun _ _ _ => FetchOutcome.exn)
      = Tab1Output.connectionError ("❌ Connection error: " ++ "timed out")
    ∧ (tab1Search [] ⟨10, 200, 1/2, true, 1/5⟩
        (fun _ => RequestOutcome.requestException "timed out")
        (fun _ _ _ => FetchOutcome.exn)).rows = [] :=
  ⟨(C8_connection_error_path [] ⟨10, 200, 1/2, true, 1/5⟩
      (fun _ => RequestOutcome.requestException "timed out")
      (fun _ _ _ => FetchOutcome.exn) "timed out" rfl).2.2.1,
   (C8_connection_error_path [] ⟨10, 200, 1/2, true, 1/5⟩
      (fun _ => RequestOutcome.requestException "timed out")
      (fun _ _ _ => FetchOutcome.exn) "timed out" rfl).2.2.2.1⟩

/-- Facts about the digit character of `d < 10`: it is a decimal digit
carrying value `d`, and it is none of the parser's structural
characters. -/
theorem digitChar_props (d : Nat) (hd : d < 10) :
    isDigitChar (Nat.digitChar d) = true ∧ (Nat.digitChar d).toNat - 48 = d
    ∧ isWsChar (Nat.digitChar d) = false
    ∧ Nat.digitChar d ≠ ']' ∧ Nat.digitChar d ≠ '\x7d' ∧ Nat.digitChar d ≠ '"'
    ∧ Nat.digitChar d ≠ '[' ∧ Nat.digitChar d ≠ '\x7b' ∧ Nat.digitChar d ≠ 't'
    ∧ Nat.digitChar d ≠ 'f' ∧ Nat.digitChar d ≠ 'n' ∧ Nat.digitChar d ≠ '-'
    ∧ Nat.digitChar d ≠ '.' ∧ Nat.digitChar d ≠ ',' := by
  interval_cases d <;> exact by decide

theorem skipWs_cons_not {c : Char} (l : List Char) (h : isWsChar c = false) :
    skipWs (c :: l) = c :: l := by
  simp [skipWs, h]

theorem skipWs_wsLead : ∀ (pre : List Char), pre.all isWsChar = true →
    ∀ l : List Char, skipWs (pre ++ l) = skipWs l
  | [], _, l => rfl
  | c :: pre, h, l => by
      simp only [List.all_cons, Bool.and_eq_true] at h
      simp only [List.cons_append, skipWs, h.1, if_true]
      exact skipWs_wsLead pre h.2 l

theorem indentChars_all_ws (k : Nat) : (indentChars k).all isWsChar = true := by
  simp only [indentChars, List.all_eq_true]
  intro c hc
  rw [List.eq_of_mem_replicate hc]
  decide

theorem skipWs_indent (k : Nat) (l : List Char) : skipWs (indentChars k ++ l) = skipWs l :=
  skipWs_wsLead (indentChars k) (indentChars_all_ws k) l

theorem skipWs_newline (l : List Char) : skipWs ('\n' :: l) = skipWs l := by
  rw [show ('\n' :: l) = ['\n'] ++ l from rfl]
  exact skipWs_wsLead ['\n'] (by decide) l

/-- The parser functions look at their input only through `skipWs`
(directly, or through `parseVal`), so an insignificant-whitespace
prefix never changes their result. -/
theorem parseVal_wsLead (fuel : Nat) (pre : List Char) (hpre : pre.all isWsChar = true)
    (l : List Char) : parseVal fuel (pre ++ l) = parseVal fuel l := by
  cases fuel with
  | zero => rfl
  | succ f =>
      simp only [parseVal]
      rw [skipWs_wsLead pre hpre l]

theorem parseArrItems_wsLead (fuel : Nat) (pre : List Char)
    (hpre : pre.all isWsChar = true) (l : List Char) :
    parseArrItems fuel (pre ++ l) = parseArrItems fuel l := by
  cases fuel with
  | zero => rfl
  | succ f =>
      simp only [parseArrItems]
      rw [parseVal_wsLead f pre hpre l]

theorem parseObjItems_wsLead (fuel : Nat) (pre : List Char)
    (hpre : pre.all isWsChar = true) (l : List Char) :
    parseObjItems fuel (pre ++ l) = parseObjItems fuel l := by
  cases fuel with
  | zero => rfl
  | succ f =>
      simp only [parseObjItems]
      rw [skipWs_wsLead pre hpre l]

/-- Scanning a quote-free body stops exactly at the closing quote. -/
theorem scanStringBody_plain : ∀ (sl : List Char), (∀ c ∈ sl, c ≠ '"') →
    ∀ rest : List Char, scanStringBody (sl ++ '"' :: rest) = some (sl, rest)
  | [], _, rest => by simp [scanStringBody]
  | c :: sl, h, rest => by
      have hc : c ≠ '"' := h c (by simp)
      have ih := scanStringBody_plain sl (fun x hx => h x (by simp [hx])) rest
      simp only [List.cons_append, scanStringBody, if_neg hc]
      rw [show List.append sl ('"' :: rest) = sl ++ '"' :: rest from rfl, ih]

/-- A list whose head (if any) is not a decimal digit. -/
def headNotDigit : List Char → Bool
  | [] => true
  | c :: _ => !isDigitChar c

/-- Scanning the digit characters of `ds` recovers `ds` and stops at
the first non-digit. -/
theorem scanDigits_digits : ∀ (ds : List Nat), (∀ d ∈ ds, d < 10) →
    ∀ rest : List Char, headNotDigit rest = true →
    scanDigits (digitsChars ds ++ rest) = (ds, rest)
  | [], _, rest, hrest => by
      cases rest with
      | nil => rfl
      | cons c t =>
          simp only [headNotDigit, Bool.not_eq_true'] at hrest
          simp [digitsChars, scanDigits, hrest]
  | d :: ds, h, rest, hrest => by
      obtain ⟨hdig, hval, -⟩ := digitChar_props d (h d (by simp))
      have ih := scanDigits_digits ds (fun x hx => h x (by simp [hx])) rest hrest
      simp only [digitsChars, List.map_cons, List.cons_append, scanDigits, hdig, if_true]
      rw [show digitsChars ds = List.map Nat.digitChar ds from rfl] at ih
      simp [ih, hval]

/-- A remainder that cannot extend a serialized number: empty, or
starting with a character that is neither a digit nor the decimal
point.  Every context a printed value appears in qualifies. -/
def sepOk : List Char → Bool
  | [] => true
  | c :: _ => !(isDigitChar c || c = '.')

theorem sepOk_headNotDigit {rest : List Char} (h : sepOk rest = true) :
    headNotDigit rest = true := by
  cases rest with
  | nil => rfl
  | cons c t =>
      simp only [sepOk, Bool.not_eq_true', Bool.or_eq_false_iff] at h
      simp [headNotDigit, h.1]

theorem sepOk_cons {c : Char} {t : List Char} (h : sepOk (c :: t) = true) :
    isDigitChar c = false ∧ c ≠ '.' := by
  simp only [sepOk, Bool.not_eq_true', Bool.or_eq_false_iff, decide_eq_false_iff_not] at h
  exact h

/-- The number scanner inverts the number printer whenever the
remainder cannot extend the number. -/
theorem parseNumTail_print (neg : Bool) (ip fp : List Nat) (hip : ip ≠ [])
    (hd : ∀ d ∈ ip ++ fp, d < 10) (rest : List Char) (hr : sepOk rest = true) :
    parseNumTail neg (digitsChars ip ++
        (if fp.isEmpty then [] else '.' :: digitsChars fp) ++ rest)
      = some (JVal.num ⟨neg, ip, fp⟩, rest) := by
  have hipd : ∀ d ∈ ip, d < 10 := fun d hdip => hd d (by simp [hdip])
  have hfpd : ∀ d ∈ fp, d < 10 := fun d hdfp => hd d (by simp [hdfp])
  obtain ⟨d, ds, rfl⟩ : ∃ d ds, ip = d :: ds := by
    cases ip with
    | nil => exact absurd rfl hip
    | cons d ds => exact ⟨d, ds, rfl⟩
  cases fp with
  | nil =>
      simp only [List.isEmpty_nil, if_true, List.append_nil]
      have hscan := scanDigits_digits (d :: ds) hipd rest (sepOk_headNotDigit hr)
      rw [parseNumTail, hscan]
      cases rest with
      | nil => rfl
      | cons c t =>
          obtain ⟨-, hdot⟩ := sepOk_cons hr
          simp [hdot]
  | cons f fs =>
      have hnd : headNotDigit ('.' :: (digitsChars (f :: fs) ++ rest)) = true := rfl
      have hscan1 := scanDigits_digits (d :: ds) hipd
        ('.' :: (digitsChars (f :: fs) ++ rest)) hnd
      have hscan2 := scanDigits_digits (f :: fs) hfpd rest (sepOk_headNotDigit hr)
      simp only [List.isEmpty_cons, Bool.false_eq_true, if_false, List.append_assoc,
        List.cons_append]
      rw [parseNumTail, hscan1]
      simp [hscan2]

theorem plainChar_ne_quote {c : Char} (h : plainChar c = true) : c ≠ '"' := by
  simp only [plainChar, Bool.and_eq_true, decide_eq_true_eq] at h
  exact h.1.2

theorem plainStr_ne_quote {s : String} (h : plainStr s = true) : ∀ c ∈ s.data, c ≠ '"' := by
  intro c hc
  rw [plainStr, List.all_eq_true] at h
  exact plainChar_ne_quote (h c hc)

/-- Every printed value starts with a non-whitespace character that
closes neither an array nor an object. -/
theorem printChars_head (ind : Nat) (v : JVal) (hwf : v.wf = true) :
    ∃ c t, printChars ind v = c :: t ∧ isWsChar c = false ∧ c ≠ ']' ∧ c ≠ '\x7d' := by
  cases v with
  | str s =>
      exact ⟨'"', s.data ++ ['"'], by simp [printChars], by decide, by decide, by decide⟩
  | num n =>
      obtain ⟨neg, ip, fp⟩ := n
      cases neg with
      | true =>
          exact ⟨'-', digitsChars ip ++ (if fp.isEmpty then [] else '.' :: digitsChars fp),
            by simp [printChars, numChars], by decide, by decide, by decide⟩
      | false =>
          simp only [JVal.wf, JNum.wf, Bool.and_eq_true, Bool.not_eq_true'] at hwf
          cases ip with
          | nil => simp at hwf
          | cons d ds =>
              have hd : d < 10 := by
                have h2 := hwf.2
                rw [List.all_eq_true] at h2
                simpa using h2 d (by simp)
              obtain ⟨-, -, hws, hbr, hbc, -⟩ := digitChar_props d hd
              exact ⟨Nat.digitChar d,
                digitsChars ds ++ (if fp.isEmpty then [] else '.' :: digitsChars fp),
                by simp [printChars, numChars, digitsChars], hws, hbr, hbc⟩
  | bool b =>
      cases b with
      | true => exact ⟨'t', ['r', 'u', 'e'], by simp [printChars], by decide, by decide, by decide⟩
      | false =>
          exact ⟨'f', ['a', 'l', 's', 'e'], by simp [printChars], by decide, by decide, by decide⟩
  | null => exact ⟨'n', ['u', 'l', 'l'], by simp [printChars], by decide, by decide, by decide⟩
  | arr xs =>
      cases xs with
      | nil => exact ⟨'[', [']'], by simp [printChars], by decide, by decide, by decide⟩
      | cons x rest =>
          exact ⟨'[', '\n' :: (printItems (ind + 2) x rest ++ '\n' :: indentChars ind ++ [']']),
            by simp [printChars], by decide, by decide, by decide⟩
  | obj kvs =>
      cases kvs with
      | nil => exact ⟨'\x7b', ['\x7d'], by simp [printChars], by decide, by decide, by decide⟩
      | cons kv rest =>
          obtain ⟨k, w⟩ := kv
          exact ⟨'\x7b',
            '\n' :: (printMembers (ind + 2) k w rest ++ '\n' :: indentChars ind ++ ['\x7d']),
            by simp [printChars], by decide, by decide, by decide⟩

theorem parseVal_quote (f : Nat) (l : List Char) :
    parseVal (f + 1) ('"' :: l)
      = (match scanStringBody l with
         | some p => some (JVal.str (String.mk p.1), p.2)
         | none => none) := by
  simp only [parseVal]
  rw [skipWs_cons_not _ (by decide)]
  rfl

theorem parseVal_open_arr (f : Nat) (l : List Char) :
    parseVal (f + 1) ('[' :: l)
      = (match skipWs l with
         | [] => none
         | c2 :: r2 =>
             if c2 = ']' then some (JVal.arr [], r2)
             else
               match parseArrItems f l with
               | some p => some (JVal.arr p.1, p.2)
               | none => none) := by
  simp only [parseVal]
  rw [skipWs_cons_not _ (by decide)]
  rfl

theorem parseVal_open_brace (f : Nat) (l : List Char) :
    parseVal (f + 1) ('\x7b' :: l)
      = (match skipWs l with
         | [] => none
         | c2 :: r2 =>
             if c2 = '\x7d' then some (JVal.obj [], r2)
             else
               match parseObjItems f l with
               | some p => some (JVal.obj p.1, p.2)
               | none => none) := by
  simp only [parseVal]
  rw [skipWs_cons_not _ (by decide)]
  rfl

theorem parseVal_true (f : Nat) (l : List Char) :
    parseVal (f + 1) ('t' :: 'r' :: 'u' :: 'e' :: l) = some (JVal.bool true, l) := by
  simp only [parseVal]
  rw [skipWs_cons_not _ (by decide)]
  rfl

theorem parseVal_false (f : Nat) (l : List Char) :
    parseVal (f + 1) ('f' :: 'a' :: 'l' :: 's' :: 'e' :: l) = some (JVal.bool false, l) := by
  simp only [parseVal]
  rw [skipWs_cons_not _ (by decide)]
  rfl

theorem parseVal_null (f : Nat) (l : List Char) :
    parseVal (f + 1) ('n' :: 'u' :: 'l' :: 'l' :: l) = some (JVal.null, l) := by
  simp only [parseVal]
  rw [skipWs_cons_not _ (by decide)]
  rfl

theorem parseVal_minus (f : Nat) (l : List Char) :
    parseVal (f + 1) ('-' :: l) = parseNumTail true l := by
  simp only [parseVal]
  rw [skipWs_cons_not _ (by decide)]
  rfl

theorem parseVal_digit (f : Nat) (c : Char) (l : List Char) (hdig : isDigitChar c = true)
    (hws : isWsChar c = false) (hq : c ≠ '"') (hbk : c ≠ '[') (hbc : c ≠ '\x7b')
    (ht : c ≠ 't') (hf : c ≠ 'f') (hn : c ≠ 'n') (hm : c ≠ '-') :
    parseVal (f + 1) (c :: l) = parseNumTail false (c :: l) := by
  simp only [parseVal]
  rw [skipWs_cons_not _ hws]
  simp only [if_neg hq, if_neg hbk, if_neg hbc, if_neg ht, if_neg hf, if_neg hn, if_neg hm,
    if_pos hdig]

theorem skipWs_printLead (ind : Nat) (x : JVal) (hx : x.wf = true) (M : List Char) :
    skipWs (printChars ind x ++ M) = printChars ind x ++ M := by
  obtain ⟨c0, t0, hpx, hws, -, -⟩ := printChars_head ind x hx
  rw [hpx, List.cons_append, skipWs_cons_not _ hws]

theorem parseVal_num_print (f : Nat) (n : JNum) (hwf : n.wf = true) (rest : List Char)
    (hr : sepOk rest = true) :
    parseVal (f + 1) (numChars n ++ rest) = some (JVal.num n, rest) := by
  obtain ⟨neg, ip, fp⟩ := n
  simp only [JNum.wf, Bool.and_eq_true, Bool.not_eq_true'] at hwf
  obtain ⟨d, ds, rfl⟩ : ∃ d ds, ip = d :: ds := by
    cases ip with
    | nil => simp at hwf
    | cons d ds => exact ⟨d, ds, rfl⟩
  have hds : ∀ x ∈ (d :: ds) ++ fp, x < 10 := by
    have h2 := hwf.2
    rw [List.all_eq_true] at h2
    intro x hx
    simpa using h2 x hx
  have key := parseNumTail_print neg (d :: ds) fp (by simp) hds rest hr
  cases neg with
  | true =>
      have harg : numChars ⟨true, d :: ds, fp⟩ ++ rest
          = '-' :: (digitsChars (d :: ds) ++
              (if fp.isEmpty then [] else '.' :: digitsChars fp) ++ rest) := by
        simp [numChars, List.append_assoc]
      rw [harg, parseVal_minus]
      exact key
  | false =>
      have hd10 : d < 10 := hds d (by simp)
      obtain ⟨hdig, -, hws, -, -, hq, hbk, hbc, ht, hf, hn, hm, -⟩ := digitChar_props d hd10
      have harg : numChars ⟨false, d :: ds, fp⟩ ++ rest
          = Nat.digitChar d :: (digitsChars ds ++
              (if fp.isEmpty then [] else '.' :: digitsChars fp) ++ rest) := by
        simp [numChars, digitsChars, List.append_assoc]
      rw [harg, parseVal_digit f _ _ hdig hws hq hbk hbc ht hf hn hm]
      exact key

theorem printItems_decomp (ind : Nat) (x : JVal) (xs : List JVal) :
    ∃ S, printItems ind x xs = indentChars ind ++ (printChars ind x ++ S) := by
  cases xs with
  | nil => exact ⟨[], by simp [printItems]⟩
  | cons y ys =>
      exact ⟨',' :: '\n' :: printItems ind y ys, by simp [printItems, List.append_assoc]⟩

theorem printMembers_decomp (ind : Nat) (k : String) (w : JVal) (kvs : List (String × JVal)) :
    ∃ S, printMembers ind k w kvs
      = indentChars ind
          ++ ('"' :: (k.data ++ ('"' :: (':' :: (' ' :: (printChars ind w ++ S)))))) := by
  cases kvs with
  | nil => exact ⟨[], by simp [printMembers]⟩
  | cons kv more =>
      obtain ⟨k2, w2⟩ := kv
      exact ⟨',' :: '\n' :: printMembers ind k2 w2 more,
        by simp [printMembers, List.append_assoc]⟩

theorem wfList_cons {x : JVal} {xs : List JVal} (h : JVal.wfList (x :: xs) = true) :
    JVal.wf x = true ∧ JVal.wfList xs = true := by
  simpa [JVal.wfList, Bool.and_eq_true] using h

theorem wfObj_cons {k : String} {w : JVal} {kvs : List (String × JVal)}
    (h : JVal.wfObj ((k, w) :: kvs) = true) :
    plainStr k = true ∧ JVal.wf w = true ∧ JVal.wfObj kvs = true := by
  simpa [JVal.wfObj, Bool.and_eq_true, and_assoc] using h

mutual
/-- Parsing a printed value recovers it exactly, for any fuel above the
printed length and any remainder that cannot extend a number. -/
theorem rtVal : ∀ (v : JVal) (fuel ind : Nat) (rest : List Char),
    v.wf = true → (printChars ind v).length < fuel → sepOk rest = true →
    parseVal fuel (printChars ind v ++ rest) = some (v, rest)
  | JVal.str s, fuel, ind, rest, hwf, hfl, _ => by
      cases fuel with
      | zero => exact absurd hfl (Nat.not_lt_zero _)
      | succ f =>
          have hplain := plainStr_ne_quote (show plainStr s = true by
            simpa [JVal.wf] using hwf)
          have harg : printChars ind (JVal.str s) ++ rest
              = '"' :: (s.data ++ ('"' :: rest)) := by
            simp [printChars]
          rw [harg, parseVal_quote, scanStringBody_plain s.data hplain rest]
  | JVal.num n, fuel, ind, rest, hwf, hfl, hsep => by
      cases fuel with
      | zero => exact absurd hfl (Nat.not_lt_zero _)
      | succ f =>
          have harg : printChars ind (JVal.num n) ++ rest = numChars n ++ rest := by
            simp [printChars]
          rw [harg]
          exact parseVal_num_print f n (by simpa [JVal.wf] using hwf) rest hsep
  | JVal.bool true, fuel, ind, rest, _, hfl, _ => by
      cases fuel with
      | zero => exact absurd hfl (Nat.not_lt_zero _)
      | succ f =>
          have harg : printChars ind (JVal.bool true) ++ rest
              = 't' :: 'r' :: 'u' :: 'e' :: rest := by simp [printChars]
          rw [harg, parseVal_true]
  | JVal.bool false, fuel, ind, rest, _, hfl, _ => by
      cases fuel with
      | zero => exact absurd hfl (Nat.not_lt_zero _)
      | succ f =>
          have harg : printChars ind (JVal.bool false) ++ rest
              = 'f' :: 'a' :: 'l' :: 's' :: 'e' :: rest := by simp [printChars]
          rw [harg, parseVal_false]
  | JVal.null, fuel, ind, rest, _, hfl, _ => by
      cases fuel with
      | zero => exact absurd hfl (Nat.not_lt_zero _)
      | succ f =>
          have harg : printChars ind JVal.null ++ rest
              = 'n' :: 'u' :: 'l' :: 'l' :: rest := by simp [printChars]
          rw [harg, parseVal_null]
  | JVal.arr [], fuel, ind, rest, _, hfl, _ => by
      cases fuel with
      | zero => exact absurd hfl (Nat.not_lt_zero _)
      | succ f =>
          have harg : printChars ind (JVal.arr []) ++ rest = '[' :: (']' :: rest) := by
            simp [printChars]
          rw [harg, parseVal_open_arr, skipWs_cons_not _ (by decide)]
          rfl
  | JVal.arr (x :: xs), fuel, ind, rest, hwf, hfl, _ => by
      cases fuel with
      | zero => exact absurd hfl (Nat.not_lt_zero _)
      | succ f =>
          have hlist : JVal.wfList (x :: xs) = true := by simpa [JVal.wf] using hwf
          have hx := (wfList_cons hlist).1
          have hlen : (printItems (ind + 2) x xs).length + 1 < f := by
            have h := hfl
            simp only [printChars, List.length_cons, List.length_append, indentChars,
              List.length_replicate] at h
            omega
          have harg : printChars ind (JVal.arr (x :: xs)) ++ rest
              = '[' :: ('\n' :: (printItems (ind + 2) x xs
                  ++ ('\n' :: (indentChars ind ++ (']' :: rest))))) := by
            simp [printChars, List.append_assoc]
          obtain ⟨c0, t0, hpx, hws0, hbr0, -⟩ := printChars_head (ind + 2) x hx
          obtain ⟨S, hS⟩ := printItems_decomp (ind + 2) x xs
          have hskip : skipWs ('\n' :: (printItems (ind + 2) x xs
                ++ ('\n' :: (indentChars ind ++ (']' :: rest)))))
              = c0 :: (t0 ++ (S ++ ('\n' :: (indentChars ind ++ (']' :: rest))))) := by
            rw [skipWs_newline, hS, List.append_assoc, skipWs_indent, List.append_assoc,
              skipWs_printLead (ind + 2) x hx, hpx, List.cons_append]
          have hrec : parseArrItems f ('\n' :: (printItems (ind + 2) x xs
                ++ ('\n' :: (indentChars ind ++ (']' :: rest))))) = some (x :: xs, rest) := by
            rw [show ('\n' :: (printItems (ind + 2) x xs
                  ++ ('\n' :: (indentChars ind ++ (']' :: rest)))))
                = ['\n'] ++ (printItems (ind + 2) x xs
                  ++ ('\n' :: (indentChars ind ++ (']' :: rest)))) from rfl,
              parseArrItems_wsLead f ['\n'] (by decide)]
            exact rtItems x xs f (ind + 2) ind rest hlist hlen
          rw [harg, parseVal_open_arr, hskip]
          simp only [if_neg hbr0, hrec]
  | JVal.obj [], fuel, ind, rest, _, hfl, _ => by
      cases fuel with
      | zero => exact absurd hfl (Nat.not_lt_zero _)
      | succ f =>
          have harg : printChars ind (JVal.obj []) ++ rest = '\x7b' :: ('\x7d' :: rest) := by
            simp [printChars]
          rw [harg, parseVal_open_brace, skipWs_cons_not _ (by decide)]
          rfl
  | JVal.obj ((k, w) :: kvs), fuel, ind, rest, hwf, hfl, _ => by
      cases fuel with
      | zero => exact absurd hfl (Nat.not_lt_zero _)
      | succ f =>
          have hobj : JVal.wfObj ((k, w) :: kvs) = true := by simpa [JVal.wf] using hwf
          have hlen : (printMembers (ind + 2) k w kvs).length + 1 < f := by
            have h := hfl
            simp only [printChars, List.length_cons, List.length_append, indentChars,
              List.length_replicate] at h
            omega
          have harg : printChars ind (JVal.obj ((k, w) :: kvs)) ++ rest
              = '\x7b' :: ('\n' :: (printMembers (ind + 2) k w kvs
                  ++ ('\n' :: (indentChars ind ++ ('\x7d' :: rest))))) := by
            simp [printChars, List.append_assoc]
          obtain ⟨S, hS⟩ := printMembers_decomp (ind + 2) k w kvs
          have hskip : skipWs ('\n' :: (printMembers (ind + 2) k w kvs
                ++ ('\n' :: (indentChars ind ++ ('\x7d' :: rest)))))
              = '"' :: ((k.data ++ ('"' :: (':' :: (' ' :: (printChars (ind + 2) w ++ S)))))
                  ++ ('\n' :: (indentChars ind ++ ('\x7d' :: rest)))) := by
            rw [skipWs_newline, hS, List.append_assoc, skipWs_indent, List.cons_append,
              skipWs_cons_not _ (by decide)]
          have hrec : parseObjItems f ('\n' :: (printMembers (ind + 2) k w kvs
                ++ ('\n' :: (indentChars ind ++ ('\x7d' :: rest)))))
              = some ((k, w) :: kvs, rest) := by
            rw [show ('\n' :: (printMembers (ind + 2) k w kvs
                  ++ ('\n' :: (indentChars ind ++ ('\x7d' :: rest)))))
                = ['\n'] ++ (printMembers (ind + 2) k w kvs
                  ++ ('\n' :: (indentChars ind ++ ('\x7d' :: rest)))) from rfl,
              parseObjItems_wsLead f ['\n'] (by decide)]
            exact rtMembers k w kvs f (ind + 2) ind rest hobj hlen
          rw [harg, parseVal_open_brace, hskip]
          simp only [if_neg (by decide : ¬('"' : Char) = '\x7d'), hrec]
termination_by v _ _ _ => sizeOf v

/-- Parsing the printed element lines of a non-empty array, then the
closing line, recovers the elements in order. -/
theorem rtItems : ∀ (x : JVal) (xs : List JVal) (fuel ind m : Nat) (rest : List Char),
    JVal.wfList (x :: xs) = true → (printItems ind x xs).length + 1 < fuel →
    parseArrItems fuel (printItems ind x xs ++ ('\n' :: (indentChars m ++ (']' :: rest))))
      = some (x :: xs, rest)
  | x, [], fuel, ind, m, rest, hwf, hfl => by
      cases fuel with
      | zero => exact absurd hfl (Nat.not_lt_zero _)
      | succ f =>
          have hx := (wfList_cons hwf).1
          have hxlen : (printChars ind x).length < f := by
            have h := hfl
            simp only [printItems, List.length_append, indentChars, List.length_replicate,
              List.append_nil] at h
            omega
          have harg : printItems ind x [] ++ ('\n' :: (indentChars m ++ (']' :: rest)))
              = indentChars ind ++ (printChars ind x
                  ++ ('\n' :: (indentChars m ++ (']' :: rest)))) := by
            simp [printItems, List.append_assoc]
          have hv : parseVal f (printItems ind x [] ++ ('\n' :: (indentChars m ++ (']' :: rest))))
              = some (x, '\n' :: (indentChars m ++ (']' :: rest))) := by
            rw [harg, parseVal_wsLead f (indentChars ind) (indentChars_all_ws ind)]
            exact rtVal x f ind ('\n' :: (indentChars m ++ (']' :: rest))) hx hxlen rfl
          have hsk : skipWs ('\n' :: (indentChars m ++ (']' :: rest))) = ']' :: rest := by
            rw [skipWs_newline, skipWs_indent, skipWs_cons_not _ (by decide)]
          simp only [parseArrItems, hv, hsk, if_neg (by decide : ¬(']' : Char) = ','),
            if_pos (rfl : (']' : Char) = ']')]
          rfl
  | x, y :: ys, fuel, ind, m, rest, hwf, hfl => by
      cases fuel with
      | zero => exact absurd hfl (Nat.not_lt_zero _)
      | succ f =>
          obtain ⟨hx, htail⟩ := wfList_cons hwf
          have hxlen : (printChars ind x).length < f := by
            have h := hfl
            simp only [printItems, List.length_append, List.length_cons, indentChars,
              List.length_replicate] at h
            omega
          have hylen : (printItems ind y ys).length + 1 < f := by
            have h := hfl
            simp only [printItems, List.length_append, List.length_cons, indentChars,
              List.length_replicate] at h
            omega
          have harg : printItems ind x (y :: ys) ++ ('\n' :: (indentChars m ++ (']' :: rest)))
              = indentChars ind ++ (printChars ind x ++ (',' :: ('\n' :: (printItems ind y ys
                  ++ ('\n' :: (indentChars m ++ (']' :: rest))))))) := by
            simp [printItems, List.append_assoc]
          have hv : parseVal f (printItems ind x (y :: ys)
                ++ ('\n' :: (indentChars m ++ (']' :: rest))))
              = some (x, ',' :: ('\n' :: (printItems ind y ys
                  ++ ('\n' :: (indentChars m ++ (']' :: rest)))))) := by
            rw [harg, parseVal_wsLead f (indentChars ind) (indentChars_all_ws ind)]
            exact rtVal x f ind (',' :: ('\n' :: (printItems ind y ys
              ++ ('\n' :: (indentChars m ++ (']' :: rest)))))) hx hxlen rfl
          have hsk : skipWs (',' :: ('\n' :: (printItems ind y ys
                ++ ('\n' :: (indentChars m ++ (']' :: rest))))))
              = ',' :: ('\n' :: (printItems ind y ys
                ++ ('\n' :: (indentChars m ++ (']' :: rest))))) :=
            skipWs_cons_not _ (by decide)
          have hrec : parseArrItems f ('\n' :: (printItems ind y ys
                ++ ('\n' :: (indentChars m ++ (']' :: rest))))) = some (y :: ys, rest) := by
            rw [show ('\n' :: (printItems ind y ys ++ ('\n' :: (indentChars m ++ (']' :: rest)))))
                = ['\n'] ++ (printItems ind y ys ++ ('\n' :: (indentChars m ++ (']' :: rest))))
                from rfl,
              parseArrItems_wsLead f ['\n'] (by decide)]
            exact rtItems y ys f ind m rest htail hylen
          simp only [parseArrItems, hv, hsk, if_pos (rfl : (',' : Char) = ','), hrec]
          rfl
termination_by x xs _ _ _ _ => 1 + sizeOf x + sizeOf xs

/-- Parsing the printed member lines of a non-empty object, then the
closing line, recovers the members in order. -/
theorem rtMembers : ∀ (k : String) (w : JVal) (kvs : List (String × JVal))
    (fuel ind m : Nat) (rest : List Char),
    JVal.wfObj ((k, w) :: kvs) = true → (printMembers ind k w kvs).length + 1 < fuel →
    parseObjItems fuel
        (printMembers ind k w kvs ++ ('\n' :: (indentChars m ++ ('\x7d' :: rest))))
      = some ((k, w) :: kvs, rest)
  | k, w, [], fuel, ind, m, rest, hwf, hfl => by
      cases fuel with
      | zero => exact absurd hfl (Nat.not_lt_zero _)
      | succ f =>
          obtain ⟨hkp, hw, -⟩ := wfObj_cons hwf
          have hk := plainStr_ne_quote hkp
          have hwlen : (printChars ind w).length < f := by
            have h := hfl
            simp only [printMembers, List.length_append, List.length_cons, indentChars,
              List.length_replicate, List.append_nil] at h
            omega
          have harg : printMembers ind k w [] ++ ('\n' :: (indentChars m ++ ('\x7d' :: rest)))
              = indentChars ind ++ ('"' :: (k.data ++ ('"' :: (':' :: (' '
                  :: (printChars ind w ++ ('\n' :: (indentChars m ++ ('\x7d' :: rest))))))))) := by
            simp [printMembers, List.append_assoc]
          have hsk1 : skipWs (printMembers ind k w []
                ++ ('\n' :: (indentChars m ++ ('\x7d' :: rest))))
              = '"' :: (k.data ++ ('"' :: (':' :: (' '
                  :: (printChars ind w ++ ('\n' :: (indentChars m ++ ('\x7d' :: rest)))))))) := by
            rw [harg, skipWs_indent, skipWs_cons_not _ (by decide)]
          have hscan := scanStringBody_plain k.data hk
            (':' :: (' ' :: (printChars ind w ++ ('\n' :: (indentChars m ++ ('\x7d' :: rest))))))
          have hsk2 : skipWs (':' :: (' '
                :: (printChars ind w ++ ('\n' :: (indentChars m ++ ('\x7d' :: rest))))))
              = ':' :: (' ' :: (printChars ind w
                  ++ ('\n' :: (indentChars m ++ ('\x7d' :: rest))))) :=
            skipWs_cons_not _ (by decide)
          have hv : parseVal f (' '
                :: (printChars ind w ++ ('\n' :: (indentChars m ++ ('\x7d' :: rest)))))
              = some (w, '\n' :: (indentChars m ++ ('\x7d' :: rest))) := by
            rw [show (' ' :: (printChars ind w ++ ('\n' :: (indentChars m ++ ('\x7d' :: rest)))))
                = [' '] ++ (printChars ind w ++ ('\n' :: (indentChars m ++ ('\x7d' :: rest))))
                from rfl,
              parseVal_wsLead f [' '] (by decide)]
            exact rtVal w f ind ('\n' :: (indentChars m ++ ('\x7d' :: rest))) hw hwlen rfl
          have hsk3 : skipWs ('\n' :: (indentChars m ++ ('\x7d' :: rest))) = '\x7d' :: rest := by
            rw [skipWs_newline, skipWs_indent, skipWs_cons_not _ (by decide)]
          simp only [parseObjItems, hsk1, if_pos (rfl : ('"' : Char) = '"'), hscan, hsk2,
            if_pos (rfl : (':' : Char) = ':'), hv, hsk3,
            if_neg (by decide : ¬('\x7d' : Char) = ','),
            if_pos (rfl : ('\x7d' : Char) = '\x7d')]
          rfl
  | k, w, (k2, w2) :: more, fuel, ind, m, rest, hwf, hfl => by
      cases fuel with
      | zero => exact absurd hfl (Nat.not_lt_zero _)
      | succ f =>
          obtain ⟨hkp, hw, htail⟩ := wfObj_cons hwf
          have hk := plainStr_ne_quote hkp
          have hwlen : (printChars ind w).length < f := by
            have h := hfl
            simp only [printMembers, List.length_append, List.length_cons, indentChars,
              List.length_replicate] at h
            omega
          have htlen : (printMembers ind k2 w2 more).length + 1 < f := by
            have h := hfl
            simp only [printMembers, List.length_append, List.length_cons, indentChars,
              List.length_replicate] at h
            omega
          have harg : printMembers ind k w ((k2, w2) :: more)
                ++ ('\n' :: (indentChars m ++ ('\x7d' :: rest)))
              = indentChars ind ++ ('"' :: (k.data ++ ('"' :: (':' :: (' '
                  :: (printChars ind w ++ (',' :: ('\n' :: (printMembers ind k2 w2 more
                    ++ ('\n' :: (indentChars m ++ ('\x7d' :: rest)))))))))))) := by
            simp [printMembers, List.append_assoc]
          have hsk1 : skipWs (printMembers ind k w ((k2, w2) :: more)
                ++ ('\n' :: (indentChars m ++ ('\x7d' :: rest))))
              = '"' :: (k.data ++ ('"' :: (':' :: (' '
                  :: (printChars ind w ++ (',' :: ('\n' :: (printMembers ind k2 w2 more
                    ++ ('\n' :: (indentChars m ++ ('\x7d' :: rest))))))))))) := by
            rw [harg, skipWs_indent, skipWs_cons_not _ (by decide)]
          have hscan := scanStringBody_plain k.data hk
            (':' :: (' ' :: (printChars ind w ++ (',' :: ('\n' :: (printMembers ind k2 w2 more
              ++ ('\n' :: (indentChars m ++ ('\x7d' :: rest)))))))))
          have hsk2 : skipWs (':' :: (' '
                :: (printChars ind w ++ (',' :: ('\n' :: (printMembers ind k2 w2 more
                  ++ ('\n' :: (indentChars m ++ ('\x7d' :: rest)))))))))
              = ':' :: (' ' :: (printChars ind w ++ (',' :: ('\n'
                  :: (printMembers ind k2 w2 more
                    ++ ('\n' :: (indentChars m ++ ('\x7d' :: rest)))))))) :=
            skipWs_cons_not _ (by decide)
          have hv : parseVal f (' ' :: (printChars ind w ++ (',' :: ('\n'
                :: (printMembers ind k2 w2 more
                  ++ ('\n' :: (indentChars m ++ ('\x7d' :: rest))))))))
              = some (w, ',' :: ('\n' :: (printMembers ind k2 w2 more
                  ++ ('\n' :: (indentChars m ++ ('\x7d' :: rest)))))) := by
            rw [show (' ' :: (printChars ind w ++ (',' :: ('\n' :: (printMembers ind k2 w2 more
                  ++ ('\n' :: (indentChars m ++ ('\x7d' :: rest))))))))
                = [' '] ++ (printChars ind w ++ (',' :: ('\n' :: (printMembers ind k2 w2 more
                  ++ ('\n' :: (indentChars m ++ ('\x7d' :: rest))))))) from rfl,
              parseVal_wsLead f [' '] (by decide)]
            exact rtVal w f ind (',' :: ('\n' :: (printMembers ind k2 w2 more
              ++ ('\n' :: (indentChars m ++ ('\x7d' :: rest)))))) hw hwlen rfl
          have hsk3 : skipWs (',' :: ('\n' :: (printMembers ind k2 w2 more
                ++ ('\n' :: (indentChars m ++ ('\x7d' :: rest))))))
              = ',' :: ('\n' :: (printMembers ind k2 w2 more
                ++ ('\n' :: (indentChars m ++ ('\x7d' :: rest))))) :=
            skipWs_cons_not _ (by decide)
          have hrec : parseObjItems f ('\n' :: (printMembers ind k2 w2 more
                ++ ('\n' :: (indentChars m ++ ('\x7d' :: rest)))))
              = some ((k2, w2) :: more, rest) := by
            rw [show ('\n' :: (printMembers ind k2 w2 more
                  ++ ('\n' :: (indentChars m ++ ('\x7d' :: rest)))))
                = ['\n'] ++ (printMembers ind k2 w2 more
                  ++ ('\n' :: (indentChars m ++ ('\x7d' :: rest)))) from rfl,
              parseObjItems_wsLead f ['\n'] (by decide)]
            exact rtMembers k2 w2 more f ind m rest htail htlen
          simp only [parseObjItems, hsk1, if_pos (rfl : ('"' : Char) = '"'), hscan, hsk2,
            if_pos (rfl : (':' : Char) = ':'), hv, hsk3,
            if_pos (rfl : (',' : Char) = ','), hrec]
          rfl
termination_by _ w kvs _ _ _ _ => 1 + sizeOf w + sizeOf kvs
end

/-- The codec round-trip: parsing the serialized form of any
well-formed value recovers exactly that value. -/
theorem jsonParse_jsonDumps (v : JVal) (hwf : v.wf = true) :
    jsonParse (jsonDumps v) = some v := by
  have hv := rtVal v ((printChars 0 v).length + 1) 0 [] hwf (by omega) rfl
  rw [List.append_nil] at hv
  have hlen : (jsonDumps v).length = (printChars 0 v).length := rfl
  have hdata : (jsonDumps v).data = printChars 0 v := rfl
  rw [jsonParse, hlen, hdata, hv]
  rfl

/-- C7: the downloaded Vienna predictions file is
`json.dumps(predictions, indent=2)` of exactly the parsed prediction
list the service returned -- no key added, removed, renamed or
reordered, no value modified, array order kept -- and deserializing
those bytes yields a value identical to the parsed response. -/
theorem C7_vienna_download_roundtrip (text : String) (preds : List PredObj)
    (hne : preds ≠ [])
    (hrender : (renderPreds preds).2 = true)
    (hwf : JVal.wf (JVal.arr (preds.map JVal.obj)) = true) :
    (tab4Render (RequestOutcome.response 200 text (some preds))).downloadData
        = some (jsonDumps (JVal.arr (preds.map JVal.obj)))
    ∧ jsonParse (jsonDumps (JVal.arr (preds.map JVal.obj)))
        = some (JVal.arr (preds.map JVal.obj)) := by
  constructor
  · have hisE : preds.isEmpty = false := by
      cases preds with
      | nil => exact absurd rfl hne
      | cons p ps => rfl
    simp [tab4Render, Tab4Output.downloadData, hisE, hrender]
  · exact jsonParse_jsonDumps _ hwf

/-- C7 witness: a concrete one-prediction response, downloaded and
parsed back unchanged. -/
theorem C7_vienna_download_roundtrip_witness :
    (tab4Render (RequestOutcome.response 200 "" (some
        [[("category_code", JVal.str "26.1.1"),
          ("category_type", JVal.str "Geometric figures"),
          ("description", JVal.str "Circles"),
          ("probability", JVal.num ⟨false, [0], [8, 5]⟩)]]))).downloadData
      = some (jsonDumps (JVal.arr
          ([[("category_code", JVal.str "26.1.1"),
             ("category_type", JVal.str "Geometric figures"),
             ("description", JVal.str "Circles"),
             ("probability", JVal.num ⟨false, [0], [8, 5]⟩)]].map JVal.obj)))
    ∧ jsonParse (jsonDumps (JVal.arr
          ([[("category_code", JVal.str "26.1.1"),
             ("category_type", JVal.str "Geometric figures"),
             ("description", JVal.str "Circles"),
             ("probability", JVal.num ⟨false, [0], [8, 5]⟩)]].map JVal.obj)))
      = some (JVal.arr
          ([[("category_code", JVal.str "26.1.1"),
             ("category_type", JVal.str "Geometric figures"),
             ("description", JVal.str "Circles"),
             ("probability", JVal.num ⟨false, [0], [8, 5]⟩)]].map JVal.obj)) :=
  C7_vienna_download_roundtrip ""
    [[("category_code", JVal.str "26.1.1"),
      ("category_type", JVal.str "Geometric figures"),
      ("description", JVal.str "Circles"),
      ("probability", JVal.num ⟨false, [0], [8, 5]⟩)]]
    (List.cons_ne_nil _ _) rfl (by decide)
